import Mathlib

/-!
Shallow embedding of the medai-backend repository (Node/Express/Mongoose).

Identifiers (Mongo ObjectIds) are modelled as naturals, JSON numbers as
rationals, dates as integer timestamps.  Request bodies carry optional
fields, mirroring the untyped JSON bodies the controllers receive.  The
document database is modelled as an explicit `Store` value threaded through
each controller; every controller is a pure function from the request data
and the store to a response and an updated store, executing the awaited
database calls of the source in their sequential order.  The outbound HTTP
call to the ML service is modelled by an exogenous `MlOutcome` parameter
describing what the remote end did.
-/

namespace MedAI

abbrev Id := Nat

/-- Whitespace trimming, as the trim sanitizers and schema setters apply
it (character-list implementation of String.trim). -/
def strTrim (s : String) : String :=
  ⟨((s.data.dropWhile Char.isWhitespace).reverse.dropWhile Char.isWhitespace).reverse⟩

def charLower (c : Char) : Char :=
  if c.toNat ≥ 65 && c.toNat ≤ 90 then Char.ofNat (c.toNat + 32) else c

/-- ASCII lowercasing, as the lowercase schema setter and the
type.toLowerCase() call apply it. -/
def strLower (s : String) : String := ⟨s.data.map charLower⟩

/-- (field, message) pairs, as produced by the express-validator formatter
in middleware/validationMiddleware.js (handleValidationErrors). -/
abbrev FieldError := String × String

/-- The authenticated principal attached to req.user by the protect
middleware: its Mongo id and role. -/
structure ReqUser where
  id : Id
  role : String
deriving DecidableEq, Repr

/-- A persisted User document (models/User.js), reduced to the fields the
auth middleware reads. -/
structure User where
  id : Id
  role : String
deriving DecidableEq, Repr

/-- One embedded ML health snapshot inside PatientProfile.healthRecords
(models/PatientProfile.js, healthRecords sub-schema). -/
structure Snapshot where
  date : Int
  age : Rat
  gender : Rat
  height : Rat
  weight : Rat
  ap_hi : Rat
  ap_lo : Rat
  cholesterol : Rat
  gluc : Rat
  smoke : Rat
  alco : Rat
  active : Rat
  bmi : Rat
  cvdPredictionCls : Nat
  lowRiskProba : Rat
  highRiskProba : Rat
  cvdAlertTriggered : Bool
deriving DecidableEq, Repr

/-- A PatientProfile document (models/PatientProfile.js), reduced to the
fields the controllers in the claims read or write. -/
structure PatientProfile where
  id : Id
  userId : Id
  name : String
  dateOfBirth : Int
  gender : String
  currentMedications : List Id
  healthRecords : List Snapshot
deriving DecidableEq, Repr

/-- A standalone HealthRecord document (models/HealthRecord.js). -/
structure HealthRecord where
  id : Id
  patientId : Id
  type : String
  value : Option Rat
  unit : Option String
  systolic : Option Rat
  diastolic : Option Rat
  notes : String
  recordedAt : Int
  createdAt : Int
deriving DecidableEq, Repr

/-- A Medication document (models/Medication.js). -/
structure Medication where
  id : Id
  patientId : Id
  name : String
  dosage : String
  frequency : String
  instructions : String
  startDate : Int
  endDate : Option Int
  status : String
deriving DecidableEq, Repr

/-- The document database: the three collections the claims touch, plus a
fresh-id counter standing for Mongo ObjectId generation. -/
structure Store where
  profiles : List PatientProfile
  healthRecords : List HealthRecord
  medications : List Medication
  nextId : Id
deriving DecidableEq, Repr

/-- JSON body of a standalone health-record create/update request. -/
structure HealthRecordBody where
  type : Option String
  value : Option Rat
  unit : Option String
  systolic : Option Rat
  diastolic : Option Rat
  notes : Option String
  recordedAt : Option Int
deriving DecidableEq, Repr

/-- JSON body of a patient-profile create/update request. -/
structure ProfileBody where
  userId : Option Id
  name : Option String
  dateOfBirth : Option Int
  gender : Option String
deriving DecidableEq, Repr

/-- JSON body of a medication create/update request. -/
structure MedicationBody where
  name : Option String
  dosage : Option String
  frequency : Option String
  instructions : Option String
  startDate : Option Int
  endDate : Option Int
  status : Option String
deriving DecidableEq, Repr

/-- JSON body of POST /patients/:id/health-data: the 11 ML features plus
optional notes. -/
structure HealthDataBody where
  age : Option Rat
  gender : Option Rat
  height : Option Rat
  weight : Option Rat
  ap_hi : Option Rat
  ap_lo : Option Rat
  cholesterol : Option Rat
  gluc : Option Rat
  smoke : Option Rat
  alco : Option Rat
  active : Option Rat
  notes : Option String
deriving DecidableEq, Repr

/-- Payload of a successful response (the data field of the success
envelope). -/
inductive RespBody where
  | empty
  | record (r : HealthRecord)
  | records (rs : List HealthRecord)
  | profile (p : PatientProfile)
  | profiles (ps : List PatientProfile)
  | medication (m : Medication)
  | medications (ms : List Medication)
  | prediction (cls : Nat) (lowP highP : Rat) (alert : Bool) (snap : Snapshot)
  | bpPrediction (latest : HealthRecord)
deriving DecidableEq, Repr

/-- A controller response.  The three shapes the source produces:
success envelope, failure envelope with one error string, and the
handleValidationErrors envelope carrying a list of (field, message)
pairs. -/
inductive ApiResponse where
  | success (status : Nat) (body : RespBody)
  | failure (status : Nat) (error : String)
  | failureList (status : Nat) (errors : List FieldError)
deriving DecidableEq, Repr

def ApiResponse.statusOf : ApiResponse → Nat
  | .success s _ => s
  | .failure s _ => s
  | .failureList s _ => s

/-- The ownership-violation rejection of the controllers: a failure
envelope with HTTP status 401 (the Forbidden arm of the error taxonomy;
the source uses 401 for it throughout, as section 9 of the spec notes). -/
def ApiResponse.isForbidden : ApiResponse → Bool
  | .failure 401 _ => true
  | _ => false

/-! ## utils/mlService.js -/

/-- What the remote ML service did for one outbound axios call: a 2xx JSON
reply, a non-2xx reply (error.response), no reply at all (error.request),
or a local request-construction failure. -/
inductive MlOutcome where
  | success (cls : Nat) (lowP highP : Rat) (alert : Bool)
  | httpError (status : Nat) (msg : String)
  | noResponse
  | setupError
deriving DecidableEq, Repr

def MlOutcome.isFailure : MlOutcome → Bool
  | .success _ _ _ _ => false
  | _ => true

/-- The parsed 2xx response body of the ML service. -/
structure MlSuccess where
  cls : Nat
  lowP : Rat
  highP : Rat
  alert : Bool
deriving DecidableEq, Repr

/-- callMlService (utils/mlService.js, first module): on success returns
response.data, on ANY axios failure it throws
new Error("Failed to get prediction from ML service").  The thrown
exception is modelled as the Except error case. -/
def callMlService : MlOutcome → Except String MlSuccess
  | .success c l h a => .ok ⟨c, l, h, a⟩
  | .httpError _ _ => .error "Failed to get prediction from ML service"
  | .noResponse => .error "Failed to get prediction from ML service"
  | .setupError => .error "Failed to get prediction from ML service"

/-- Return value of predictCvdRisk: either the parsed prediction data or
the structured error object it builds in its catch block. -/
inductive MlResult where
  | data (cls : Nat) (lowP highP : Rat) (alert : Bool)
  | err (msg : String) (status : Option Nat)
deriving DecidableEq, Repr

/-- predictCvdRisk (utils/mlService.js, second module): returns
response.data on success; on failure returns a structured error object
(never throws): error.response gives msg plus upstream status,
error.request gives the unreachable message, otherwise the setup
message. -/
def predictCvdRisk : MlOutcome → MlResult
  | .success c l h a => .data c l h a
  | .httpError s m => .err ("ML service error: " ++ m) (some s)
  | .noResponse => .err "ML service is unreachable" none
  | .setupError => .err "Error processing ML request" none

/-! ## middleware/authMiddleware.js -/

/-- The state of the bearer credential of a request, as the protect
middleware distinguishes it: absent header, jwt.verify throwing on a
malformed token, jwt.verify throwing on an expired token, or verification
succeeding with a subject id. -/
inductive TokenState where
  | missing
  | malformed
  | expired
  | valid (uid : Id)
deriving DecidableEq, Repr

/-- Outcome of the protect middleware: a rejection response, or next()
with req.user set. -/
inductive AuthOutcome where
  | reject (status : Nat) (msg : String)
  | proceed (u : User)
deriving DecidableEq, Repr

/-- protect (middleware/authMiddleware.js): no token gives 401; a
jwt.verify throw (malformed or expired) gives 401 from the catch block;
a verified id that resolves to no User gives 404; otherwise the request
proceeds with req.user attached. -/
def protect (users : List User) (tok : TokenState) : AuthOutcome :=
  match tok with
  | .missing => .reject 401 "Not authorized to access this route"
  | .malformed => .reject 401 "Not authorized, token failed"
  | .expired => .reject 401 "Not authorized, token failed"
  | .valid uid =>
    match users.find? (fun u => u.id == uid) with
    | none => .reject 404 "No user found with this ID"
    | some u => .proceed u

/-! ## middleware/validationMiddleware.js — validateHealthRecordBody

Each express-validator chain marked optional is skipped entirely
(standard and custom validators alike) when the field is absent from the
body; non-optional chains run against the missing field.  Sanitizers
(trim) run before the later validators of the same request.  All chains
run and their violations are accumulated; handleValidationErrors turns a
non-empty list into a 400 response carrying (field, message) pairs.
Quotation marks inside the source message strings are elided here. -/

/-- express-validator isInt with min 0: the rational is a non-negative
integer. -/
def ratIsNonnegInt (q : Rat) : Bool := q.den == 1 && 0 ≤ q.num

def hrTypeEnum : List String :=
  ["blood_pressure", "glucose", "weight", "heart_rate", "symptom_log",
   "activity", "food_intake", "sleep", "other"]

/-- The trimmed type string the later custom validators compare against
(the trim sanitizer of the type chain has already mutated req.body). -/
def mwBodyType (b : HealthRecordBody) : String := strTrim (b.type.getD "")

/-- Chain body("type"): trim, notEmpty, isIn the enum. -/
def mwTypeErrors (b : HealthRecordBody) : List FieldError :=
  (if mwBodyType b == "" then
    [("type", "Health record type is required.")] else []) ++
  (if hrTypeEnum.contains (mwBodyType b) then []
   else [("type", "Invalid health record type.")])

/-- Chain body("recordedAt"): isISO8601/toDate, notEmpty, custom
not-in-the-future check.  A missing field fails the first two; the custom
check compares new Date(undefined) with now, which is never greater. -/
def mwRecordedAtErrors (now : Int) (b : HealthRecordBody) : List FieldError :=
  match b.recordedAt with
  | none =>
    [("recordedAt", "Invalid recorded date format (YYYY-MM-DDTHH:mm:ssZ or YYYY-MM-DD)."),
     ("recordedAt", "Recorded date is required.")]
  | some t =>
    if t > now then [("recordedAt", "Recorded date cannot be in the future.")] else []

/-- Chain body("notes"): optional, trim, max length 1000. -/
def mwNotesErrors (b : HealthRecordBody) : List FieldError :=
  match b.notes with
  | none => []
  | some n =>
    if (strTrim n).length > 1000 then
      [("notes", "Notes cannot be more than 1000 characters.")] else []

/-- Chain body("value"): optional, isNumeric, custom.  The required-for
glucose/weight/heart_rate branch of the custom can only fire on a present
value, where it never holds; the blood_pressure branch rejects a present
value. -/
def mwValueErrors (b : HealthRecordBody) : List FieldError :=
  match b.value with
  | none => []
  | some _ =>
    if mwBodyType b == "blood_pressure" then
      [("value", "value field should not be used for blood_pressure type. Use systolic and diastolic instead.")]
    else []

/-- Chain body("unit"): optional, trim, max length 20, custom requiring a
non-empty unit whenever a numeric value is in the body. -/
def mwUnitErrors (b : HealthRecordBody) : List FieldError :=
  match b.unit with
  | none => []
  | some u =>
    (if (strTrim u).length > 20 then
      [("unit", "Unit cannot be more than 20 characters.")] else []) ++
    (if b.value.isSome && strTrim u == "" then
      [("unit", "unit is required when a numerical value is provided.")] else [])

/-- Chain body("systolic"): optional, isInt at least 0, custom.  The
required-for-blood_pressure branch can only fire on a present field, where
it never holds; the other branch rejects a systolic on a non
blood_pressure type. -/
def mwSystolicErrors (b : HealthRecordBody) : List FieldError :=
  match b.systolic with
  | none => []
  | some s =>
    (if ratIsNonnegInt s then []
     else [("systolic", "Systolic value must be a non-negative integer.")]) ++
    (if mwBodyType b == "blood_pressure" then []
     else [("systolic", "systolic field should not be used for this record type.")])

/-- Chain body("diastolic"): mirror of the systolic chain. -/
def mwDiastolicErrors (b : HealthRecordBody) : List FieldError :=
  match b.diastolic with
  | none => []
  | some d =>
    (if ratIsNonnegInt d then []
     else [("diastolic", "Diastolic value must be a non-negative integer.")]) ++
    (if mwBodyType b == "blood_pressure" then []
     else [("diastolic", "diastolic field should not be used for this record type.")])

/-- validateHealthRecordBody: the accumulated violations of all chains, in
chain order.  The final body([age, ...]) chain always returns true and
contributes nothing. -/
def mwValidateHealthRecordBody (now : Int) (b : HealthRecordBody) : List FieldError :=
  mwTypeErrors b ++ mwRecordedAtErrors now b ++ mwNotesErrors b ++
  mwValueErrors b ++ mwUnitErrors b ++ mwSystolicErrors b ++ mwDiastolicErrors b

/-! ## models/HealthRecord.js — schema validation on save

Model.create runs the pre validate hook (which calls invalidate on
type-inconsistent fields) and then the per-path validators: required
(plain or conditional), enum, and min bounds.  Mongoose keeps one error
per path; later path errors on an already-invalidated path are dropped. -/

/-- Default mongoose message for a failed required validator. -/
def requiredMsg (path : String) : String := "Path " ++ path ++ " is required."

/-- The pre validate hook of HealthRecordSchema: for blood_pressure a
present value is invalidated; for glucose/weight/heart_rate a present
systolic or diastolic is invalidated; the remaining types only carry an
empty comment block. -/
def hrPreValidateErrors (r : HealthRecord) : List FieldError :=
  (if r.type == "blood_pressure" && r.value.isSome then
    [("value", "Value field should not be used for blood_pressure type. Use systolic and diastolic instead.")]
   else []) ++
  (if r.type == "glucose" || r.type == "weight" || r.type == "heart_rate" then
    (if r.systolic.isSome then
      [("systolic", "systolic field should not be used for this type. Use value instead.")] else []) ++
    (if r.diastolic.isSome then
      [("diastolic", "diastolic field should not be used for this type. Use value instead.")] else [])
   else [])

/-- Per-path schema validators of HealthRecordSchema, in schema order:
type (required, enum), value (required for glucose/weight/heart_rate,
min 0), unit (required when value is set, max length 20), systolic and
diastolic (required for blood_pressure, min 0), notes (max length 1000).
patientId, recordedAt and createdAt are always set by the controller or a
default. -/
def hrPathErrors (r : HealthRecord) : List FieldError :=
  (if r.type == "" then [("type", "Please add the type of health record")]
   else if hrTypeEnum.contains r.type then []
   else [("type", "is not a valid enum value for path type.")]) ++
  ((if (r.type == "glucose" || r.type == "weight" || r.type == "heart_rate")
       && r.value.isNone then [("value", requiredMsg "value")] else []) ++
   (match r.value with
    | some v => if v < 0 then
        [("value", "Value cannot be negative for this record type.")] else []
    | none => [])) ++
  ((if r.value.isSome && r.unit.isNone then [("unit", requiredMsg "unit")] else []) ++
   (match r.unit with
    | some u => if u.length > 20 then
        [("unit", "Unit cannot be more than 20 characters")] else []
    | none => [])) ++
  ((if r.type == "blood_pressure" && r.systolic.isNone then
      [("systolic", requiredMsg "systolic")] else []) ++
   (match r.systolic with
    | some s => if s < 0 then [("systolic", "Systolic value cannot be negative")] else []
    | none => [])) ++
  ((if r.type == "blood_pressure" && r.diastolic.isNone then
      [("diastolic", requiredMsg "diastolic")] else []) ++
   (match r.diastolic with
    | some d => if d < 0 then [("diastolic", "Diastolic value cannot be negative")] else []
    | none => [])) ++
  (if r.notes.length > 1000 then
    [("notes", "Notes cannot be more than 1000 characters")] else [])

/-- Full document validation: hook invalidations first, then path errors
on paths not already invalidated. -/
def mongooseValidateHealthRecord (r : HealthRecord) : List FieldError :=
  let pre := hrPreValidateErrors r
  pre ++ (hrPathErrors r).filter (fun e => pre.all (fun q => q.1 != e.1))

/-- The document Model.create builds from the request body after the
controller attached patientId: schema setters lowercase and trim type,
trim unit, and the defaults fill notes, recordedAt and createdAt. -/
def buildHealthRecordDoc (now : Int) (rid : Id) (patientId : Id)
    (b : HealthRecordBody) : HealthRecord :=
  { id := rid
    patientId := patientId
    type := strLower (strTrim (b.type.getD ""))
    value := b.value
    unit := b.unit.map strTrim
    systolic := b.systolic
    diastolic := b.diastolic
    notes := b.notes.getD ""
    recordedAt := b.recordedAt.getD now
    createdAt := now }

/-- The controllers turn a mongoose ValidationError into a 400 response
whose error field joins all path messages with a comma. -/
def joinMsgs (errs : List FieldError) : String :=
  String.intercalate ", " (errs.map (fun e => e.2))

/-! ## Store lookups and the ownership guard -/

def findProfile (st : Store) (pid : Id) : Option PatientProfile :=
  st.profiles.find? (fun p => p.id == pid)

def findHealthRecord (st : Store) (rid : Id) : Option HealthRecord :=
  st.healthRecords.find? (fun r => r.id == rid)

def findMedication (st : Store) (mid : Id) : Option Medication :=
  st.medications.find? (fun m => m.id == mid)

/-- The ownership check repeated by every patient-scoped controller
(checkPatientProfileAccess in the asyncHandler variant):
patientProfile.userId differs from req.user.id and req.user.role is not
admin. -/
def ownershipFails (p : PatientProfile) (u : ReqUser) : Bool :=
  p.userId != u.id && u.role != "admin"

/-- Replace the profile with the given id (a mongoose document save, with
_id uniqueness making the by-id replacement exact). -/
def saveProfile (st : Store) (pid : Id) (f : PatientProfile → PatientProfile) : Store :=
  { st with profiles := st.profiles.map (fun p => if p.id == pid then f p else p) }

/-- Sorting a mongoose query result by recordedAt descending
(sort with recordedAt as -1). -/
def recAfter (a b : HealthRecord) : Prop := b.recordedAt ≤ a.recordedAt

instance : DecidableRel recAfter :=
  fun a b => inferInstanceAs (Decidable (b.recordedAt ≤ a.recordedAt))

def sortByRecordedAtDesc (l : List HealthRecord) : List HealthRecord :=
  l.insertionSort recAfter

/-! ## controllers/healthRecordController.js -/

/-- createHealthRecord: resolve the profile (404 when absent), run the
ownership check (401 on failure), attach patientId to the body and
Model.create the record; a mongoose ValidationError becomes a 400 with
the joined messages, otherwise the new document is stored and returned
with 201. -/
def createHealthRecord (now : Int) (st : Store) (user : ReqUser) (patientId : Id)
    (body : HealthRecordBody) : ApiResponse × Store :=
  match findProfile st patientId with
  | none => (.failure 404 "Patient profile not found", st)
  | some p =>
    if ownershipFails p user then
      (.failure 401 "User is not authorized to add health records to this patient profile", st)
    else
      let doc := buildHealthRecordDoc now st.nextId patientId body
      let errs := mongooseValidateHealthRecord doc
      if errs.isEmpty then
        (.success 201 (.record doc),
         { st with healthRecords := st.healthRecords ++ [doc], nextId := st.nextId + 1 })
      else
        (.failure 400 (joinMsgs errs), st)

/-- getHealthRecordsForPatient: profile and ownership checks, then the
find on patientId sorted by recordedAt descending. -/
def getHealthRecordsForPatient (st : Store) (user : ReqUser) (patientId : Id) :
    ApiResponse × Store :=
  match findProfile st patientId with
  | none => (.failure 404 "Patient profile not found", st)
  | some p =>
    if ownershipFails p user then
      (.failure 401 "User is not authorized to view health records for this patient profile", st)
    else
      (.success 200 (.records
        (sortByRecordedAtDesc (st.healthRecords.filter (fun r => r.patientId == patientId)))), st)

/-- getHealthRecordsByTypeForPatient: as above with the lowercased type
filter added. -/
def getHealthRecordsByTypeForPatient (st : Store) (user : ReqUser) (patientId : Id)
    (ty : String) : ApiResponse × Store :=
  match findProfile st patientId with
  | none => (.failure 404 "Patient profile not found", st)
  | some p =>
    if ownershipFails p user then
      (.failure 401 "User is not authorized to view health records for this patient profile", st)
    else
      (.success 200 (.records
        (sortByRecordedAtDesc (st.healthRecords.filter
          (fun r => r.patientId == patientId && r.type == strLower ty)))), st)

/-- getHealthRecord: resolve the record (404), then its parent profile;
an absent parent or an ownership mismatch both take the 401 branch. -/
def getHealthRecord (st : Store) (user : ReqUser) (rid : Id) : ApiResponse × Store :=
  match findHealthRecord st rid with
  | none => (.failure 404 "Health record not found", st)
  | some hr =>
    match findProfile st hr.patientId with
    | none => (.failure 401 "User is not authorized to view this health record", st)
    | some p =>
      if ownershipFails p user then
        (.failure 401 "User is not authorized to view this health record", st)
      else
        (.success 200 (.record hr), st)

/-- findByIdAndUpdate merges the supplied body fields over the stored
document; schema setters apply to the set paths.  Absent body fields keep
their stored values. -/
def applyHealthRecordUpdate (old : HealthRecord) (b : HealthRecordBody) : HealthRecord :=
  { old with
    type := match b.type with | some t => strLower (strTrim t) | none => old.type
    value := match b.value with | some v => some v | none => old.value
    unit := match b.unit with | some u => some (strTrim u) | none => old.unit
    systolic := match b.systolic with | some s => some s | none => old.systolic
    diastolic := match b.diastolic with | some d => some d | none => old.diastolic
    notes := b.notes.getD old.notes
    recordedAt := b.recordedAt.getD old.recordedAt }

/-- runValidators on findByIdAndUpdate runs update validators on the
paths present in the update only; the document pre validate hook and the
cross-field required functions do NOT run on a query update.  Only the
enum, min and maxlength checks of the supplied paths apply. -/
def hrUpdateValidatorErrors (b : HealthRecordBody) (m : HealthRecord) : List FieldError :=
  (match b.type with
   | some _ =>
     if m.type == "" then [("type", "Please add the type of health record")]
     else if hrTypeEnum.contains m.type then []
     else [("type", "is not a valid enum value for path type.")]
   | none => []) ++
  (match b.value with
   | some v => if v < 0 then
       [("value", "Value cannot be negative for this record type.")] else []
   | none => []) ++
  (match b.unit with
   | some u => if (strTrim u).length > 20 then
       [("unit", "Unit cannot be more than 20 characters")] else []
   | none => []) ++
  (match b.systolic with
   | some s => if s < 0 then [("systolic", "Systolic value cannot be negative")] else []
   | none => []) ++
  (match b.diastolic with
   | some d => if d < 0 then [("diastolic", "Diastolic value cannot be negative")] else []
   | none => []) ++
  (match b.notes with
   | some n => if n.length > 1000 then
       [("notes", "Notes cannot be more than 1000 characters")] else []
   | none => [])

/-- updateHealthRecord: resolve record (404) and parent profile (absent
parent or ownership mismatch give 401), then findByIdAndUpdate with
runValidators; a ValidationError becomes a 400 with joined messages. -/
def updateHealthRecord (st : Store) (user : ReqUser) (rid : Id)
    (body : HealthRecordBody) : ApiResponse × Store :=
  match findHealthRecord st rid with
  | none => (.failure 404 "Health record not found", st)
  | some hr =>
    match findProfile st hr.patientId with
    | none => (.failure 401 "User is not authorized to update this health record", st)
    | some p =>
      if ownershipFails p user then
        (.failure 401 "User is not authorized to update this health record", st)
      else
        let merged := applyHealthRecordUpdate hr body
        let errs := hrUpdateValidatorErrors body merged
        if errs.isEmpty then
          (.success 200 (.record merged),
           { st with healthRecords :=
              st.healthRecords.map (fun r => if r.id == rid then merged else r) })
        else
          (.failure 400 (joinMsgs errs), st)

/-- deleteHealthRecord: resolve record (404) and parent profile (absent
parent or ownership mismatch give 401), then deleteOne on the document
(_id uniqueness makes the by-id filter exact). -/
def deleteHealthRecord (st : Store) (user : ReqUser) (rid : Id) : ApiResponse × Store :=
  match findHealthRecord st rid with
  | none => (.failure 404 "Health record not found", st)
  | some hr =>
    match findProfile st hr.patientId with
    | none => (.failure 401 "User is not authorized to delete this health record", st)
    | some p =>
      if ownershipFails p user then
        (.failure 401 "User is not authorized to delete this health record", st)
      else
        (.success 200 .empty,
         { st with healthRecords := st.healthRecords.filter (fun r => r.id != rid) })

/-- JS truthiness of an optional numeric field (0 and an absent field are
falsy). -/
def isTruthyR (o : Option Rat) : Bool :=
  match o with
  | some v => v != 0
  | none => false

/-- predictBpRisk: profile and ownership checks, findOne of the latest
blood_pressure record (404 when none), feature extraction with the JS
truthiness fallbacks, then callMlService; the catch block turns its
thrown error into a 500 with the error message. -/
def predictBpRisk (st : Store) (user : ReqUser) (patientId : Id)
    (outcome : MlOutcome) : ApiResponse × Store :=
  match findProfile st patientId with
  | none => (.failure 404 "Patient profile not found", st)
  | some p =>
    if ownershipFails p user then
      (.failure 401 "User is not authorized to access this patient profile data.", st)
    else
      match (sortByRecordedAtDesc (st.healthRecords.filter
              (fun r => r.patientId == patientId && r.type == "blood_pressure"))).head? with
      | none => (.failure 404 "No blood pressure records found for patient.", st)
      | some latestBp =>
        -- value is numeric in the schema, so the object-shaped branch of the
        -- feature extraction cannot apply; the remaining branches are:
        let _features : List Rat :=
          if isTruthyR latestBp.systolic && isTruthyR latestBp.diastolic then
            [latestBp.systolic.getD 0, latestBp.diastolic.getD 0]
          else
            [latestBp.value.getD 0]
        match callMlService outcome with
        | .error e => (.failure 500 e, st)
        | .ok _ => (.success 200 (.bpPrediction latestBp), st)

/-! ## controllers/patientController.js -/

def genderEnum : List String := ["Male", "Female", "Other", "Prefer not to say"]

/-- Schema validation of PatientProfileSchema on create, for the fields
modelled here: name (required, trimmed, max 100), dateOfBirth (required),
gender (required, enum). -/
def profileValidateErrors (b : ProfileBody) : List FieldError :=
  (match b.name with
   | none => [("name", "Please add the patients name")]
   | some n =>
     if strTrim n == "" then [("name", "Please add the patients name")]
     else if (strTrim n).length > 100 then
       [("name", "Name can not be more than 100 characters")] else []) ++
  (if b.dateOfBirth.isNone then
    [("dateOfBirth", "Please add the patients date of birth")] else []) ++
  (match b.gender with
   | none => [("gender", "Please specify the patients gender")]
   | some g =>
     if genderEnum.contains g then []
     else [("gender", "is not a valid enum value for path gender.")])

/-- createPatientProfile: overwrites req.body.userId with req.user.id
before Model.create; a ValidationError becomes a 400 with joined
messages, otherwise the created profile is stored and returned with
201. -/
def createPatientProfile (st : Store) (user : ReqUser) (body : ProfileBody) :
    ApiResponse × Store :=
  let bodyOverwritten := { body with userId := some user.id }
  let errs := profileValidateErrors bodyOverwritten
  if errs.isEmpty then
    let p : PatientProfile :=
      { id := st.nextId
        userId := user.id
        name := strTrim (bodyOverwritten.name.getD "")
        dateOfBirth := bodyOverwritten.dateOfBirth.getD 0
        gender := bodyOverwritten.gender.getD ""
        currentMedications := []
        healthRecords := [] }
    (.success 201 (.profile p),
     { st with profiles := st.profiles ++ [p], nextId := st.nextId + 1 })
  else
    (.failure 400 (joinMsgs errs), st)

/-- getPatientProfiles: the profiles whose userId is the requester. -/
def getPatientProfiles (st : Store) (user : ReqUser) : ApiResponse × Store :=
  (.success 200 (.profiles (st.profiles.filter (fun p => p.userId == user.id))), st)

/-- getPatientProfile: resolve (404), ownership check (401), return. -/
def getPatientProfile (st : Store) (user : ReqUser) (pid : Id) : ApiResponse × Store :=
  match findProfile st pid with
  | none => (.failure 404 "Patient profile not found", st)
  | some p =>
    if ownershipFails p user then
      (.failure 401 "User is not authorized to view this patient profile", st)
    else
      (.success 200 (.profile p), st)

/-- findByIdAndUpdate merge for a profile body: supplied fields overwrite
(the update does not protect userId). -/
def applyProfileUpdate (old : PatientProfile) (b : ProfileBody) : PatientProfile :=
  { old with
    userId := b.userId.getD old.userId
    name := match b.name with | some n => strTrim n | none => old.name
    dateOfBirth := b.dateOfBirth.getD old.dateOfBirth
    gender := b.gender.getD old.gender }

/-- Update validators on the supplied profile paths. -/
def profileUpdateValidatorErrors (b : ProfileBody) (m : PatientProfile) : List FieldError :=
  (match b.name with
   | some _ =>
     if m.name == "" then [("name", "Please add the patients name")]
     else if m.name.length > 100 then
       [("name", "Name can not be more than 100 characters")] else []
   | none => []) ++
  (match b.gender with
   | some _ =>
     if genderEnum.contains m.gender then []
     else [("gender", "is not a valid enum value for path gender.")]
   | none => [])

/-- updatePatientProfile: resolve (404), ownership check (401), then
findByIdAndUpdate with runValidators. -/
def updatePatientProfile (st : Store) (user : ReqUser) (pid : Id) (body : ProfileBody) :
    ApiResponse × Store :=
  match findProfile st pid with
  | none => (.failure 404 "Patient profile not found", st)
  | some p =>
    if ownershipFails p user then
      (.failure 401 "User is not authorized to update this patient profile", st)
    else
      let merged := applyProfileUpdate p body
      let errs := profileUpdateValidatorErrors body merged
      if errs.isEmpty then
        (.success 200 (.profile merged), saveProfile st pid (fun _ => merged))
      else
        (.failure 400 (joinMsgs errs), st)

/-- deletePatientProfile: resolve (404), ownership check (401), then
deleteOne on the profile document alone; PatientProfileSchema has no
delete hooks, so no other collection is touched. -/
def deletePatientProfile (st : Store) (user : ReqUser) (pid : Id) : ApiResponse × Store :=
  match findProfile st pid with
  | none => (.failure 404 "Patient profile not found", st)
  | some p =>
    if ownershipFails p user then
      (.failure 401 "User is not authorized to delete this patient profile", st)
    else
      (.success 200 .empty,
       { st with profiles := st.profiles.filter (fun q => q.id != pid) })

/-- The some-undefined guard of recordPatientHealthData over the 11
extracted features. -/
def missingFeatures (body : HealthDataBody) : Bool :=
  body.age.isNone || body.gender.isNone || body.height.isNone ||
  body.weight.isNone || body.ap_hi.isNone || body.ap_lo.isNone ||
  body.cholesterol.isNone || body.gluc.isNone || body.smoke.isNone ||
  body.alco.isNone || body.active.isNone

/-- recordPatientHealthData (POST /patients/:id/health-data): profile and
ownership checks, the some-undefined guard over the 11 features, the
predictCvdRisk call (a structured error is forwarded with its status or
500), and only on success the push of the snapshot (with the computed
BMI) onto the embedded healthRecords followed by save. -/
def recordPatientHealthData (now : Int) (st : Store) (user : ReqUser) (pid : Id)
    (body : HealthDataBody) (outcome : MlOutcome) : ApiResponse × Store :=
  match findProfile st pid with
  | none => (.failure 404 "Patient profile not found", st)
  | some p =>
    if ownershipFails p user then
      (.failure 401 "User is not authorized to record data for this patient profile", st)
    else
      if missingFeatures body then
        (.failure 400 "Missing one or more required health data fields for CVD prediction.", st)
      else
        match predictCvdRisk outcome with
        | .err m s => (.failure (s.getD 500) m, st)
        | .data c l h a =>
          let w := body.weight.getD 0
          let ht := body.height.getD 0
          let snap : Snapshot :=
            { date := now
              age := body.age.getD 0
              gender := body.gender.getD 0
              height := ht
              weight := w
              ap_hi := body.ap_hi.getD 0
              ap_lo := body.ap_lo.getD 0
              cholesterol := body.cholesterol.getD 0
              gluc := body.gluc.getD 0
              smoke := body.smoke.getD 0
              alco := body.alco.getD 0
              active := body.active.getD 0
              bmi := w / ((ht / 100) ^ 2)
              cvdPredictionCls := c
              lowRiskProba := l
              highRiskProba := h
              cvdAlertTriggered := a }
          (.success 200 (.prediction c l h a snap),
           saveProfile st pid (fun q => { q with healthRecords := q.healthRecords ++ [snap] }))

/-! ## controllers/medicationController.js -/

def medStatusEnum : List String := ["active", "discontinued", "completed"]

/-- Schema validation of MedicationSchema on create: name, dosage,
frequency and startDate required with length bounds, instructions
bounded, endDate at least startDate when both are set, status enum. -/
def medValidateErrors (b : MedicationBody) : List FieldError :=
  (match b.name with
   | none => [("name", "Please add the medication name")]
   | some n =>
     if strTrim n == "" then [("name", "Please add the medication name")]
     else if (strTrim n).length > 100 then
       [("name", "Medication name cannot be more than 100 characters")] else []) ++
  (match b.dosage with
   | none => [("dosage", "Please add the dosage")]
   | some d =>
     if strTrim d == "" then [("dosage", "Please add the dosage")]
     else if (strTrim d).length > 50 then
       [("dosage", "Dosage cannot be more than 50 characters")] else []) ++
  (match b.frequency with
   | none => [("frequency", "Please add the frequency")]
   | some f =>
     if strTrim f == "" then [("frequency", "Please add the frequency")]
     else if (strTrim f).length > 100 then
       [("frequency", "Frequency cannot be more than 100 characters")] else []) ++
  (match b.instructions with
   | some i =>
     if i.length > 500 then
       [("instructions", "Instructions cannot be more than 500 characters")] else []
   | none => []) ++
  (if b.startDate.isNone then
    [("startDate", "Please add the start date of the medication")] else []) ++
  (match b.startDate, b.endDate with
   | some sd, some ed =>
     if ed < sd then [("endDate", "End date cannot be before start date")] else []
   | _, _ => []) ++
  (match b.status with
   | some s =>
     if medStatusEnum.contains s then []
     else [("status", "is not a valid enum value for path status.")]
   | none => [])

/-- addMedication: profile and ownership checks, Medication.create (400
with joined messages on a ValidationError), then the push of the new id
onto the profiles currentMedications and save.  The post save hook of
the hook-bearing Medication model adds the id only when absent, and the
controllers save of its pre-create copy lands last, so the sequential
net effect is the single push modelled here. -/
def addMedication (st : Store) (user : ReqUser) (patientId : Id) (b : MedicationBody) :
    ApiResponse × Store :=
  match findProfile st patientId with
  | none => (.failure 404 "Patient profile not found", st)
  | some p =>
    if ownershipFails p user then
      (.failure 401 "User is not authorized to add medication to this patient profile", st)
    else
      let errs := medValidateErrors b
      if errs.isEmpty then
        let med : Medication :=
          { id := st.nextId
            patientId := patientId
            name := strTrim (b.name.getD "")
            dosage := strTrim (b.dosage.getD "")
            frequency := strTrim (b.frequency.getD "")
            instructions := b.instructions.getD ""
            startDate := b.startDate.getD 0
            endDate := b.endDate
            status := b.status.getD "active" }
        (.success 201 (.medication med),
         { st with
            medications := st.medications ++ [med]
            profiles := st.profiles.map (fun q =>
              if q.id == patientId then
                { q with currentMedications := q.currentMedications ++ [med.id] }
              else q)
            nextId := st.nextId + 1 })
      else
        (.failure 400 (joinMsgs errs), st)

/-- getMedicationsForPatient: profile and ownership checks, then the find
on patientId. -/
def getMedicationsForPatient (st : Store) (user : ReqUser) (patientId : Id) :
    ApiResponse × Store :=
  match findProfile st patientId with
  | none => (.failure 404 "Patient profile not found", st)
  | some p =>
    if ownershipFails p user then
      (.failure 401 "User is not authorized to view medications for this patient profile", st)
    else
      (.success 200 (.medications
        (st.medications.filter (fun m => m.patientId == patientId))), st)

/-- getMedication: resolve the medication (404), then its parent profile;
an absent parent or an ownership mismatch both take the 401 branch. -/
def getMedication (st : Store) (user : ReqUser) (mid : Id) : ApiResponse × Store :=
  match findMedication st mid with
  | none => (.failure 404 "Medication not found", st)
  | some m =>
    match findProfile st m.patientId with
    | none => (.failure 401 "User is not authorized to view this medication", st)
    | some p =>
      if ownershipFails p user then
        (.failure 401 "User is not authorized to view this medication", st)
      else
        (.success 200 (.medication m), st)

/-- findByIdAndUpdate merge for a medication body. -/
def applyMedicationUpdate (old : Medication) (b : MedicationBody) : Medication :=
  { old with
    name := match b.name with | some n => strTrim n | none => old.name
    dosage := match b.dosage with | some d => strTrim d | none => old.dosage
    frequency := match b.frequency with | some f => strTrim f | none => old.frequency
    instructions := b.instructions.getD old.instructions
    startDate := b.startDate.getD old.startDate
    endDate := match b.endDate with | some e => some e | none => old.endDate
    status := b.status.getD old.status }

/-- Update validators on the supplied medication paths. -/
def medUpdateValidatorErrors (b : MedicationBody) (m : Medication) : List FieldError :=
  (match b.name with
   | some _ =>
     if m.name == "" then [("name", "Please add the medication name")]
     else if m.name.length > 100 then
       [("name", "Medication name cannot be more than 100 characters")] else []
   | none => []) ++
  (match b.dosage with
   | some _ =>
     if m.dosage == "" then [("dosage", "Please add the dosage")]
     else if m.dosage.length > 50 then
       [("dosage", "Dosage cannot be more than 50 characters")] else []
   | none => []) ++
  (match b.frequency with
   | some _ =>
     if m.frequency == "" then [("frequency", "Please add the frequency")]
     else if m.frequency.length > 100 then
       [("frequency", "Frequency cannot be more than 100 characters")] else []
   | none => []) ++
  (match b.instructions with
   | some i =>
     if i.length > 500 then
       [("instructions", "Instructions cannot be more than 500 characters")] else []
   | none => []) ++
  (match b.status with
   | some s =>
     if medStatusEnum.contains s then []
     else [("status", "is not a valid enum value for path status.")]
   | none => [])

/-- updateMedication: resolve (404), parent profile check (401), then
findByIdAndUpdate with runValidators.  Neither profiles
currentMedications list is touched by an update. -/
def updateMedication (st : Store) (user : ReqUser) (mid : Id) (b : MedicationBody) :
    ApiResponse × Store :=
  match findMedication st mid with
  | none => (.failure 404 "Medication not found", st)
  | some m =>
    match findProfile st m.patientId with
    | none => (.failure 401 "User is not authorized to update this medication", st)
    | some p =>
      if ownershipFails p user then
        (.failure 401 "User is not authorized to update this medication", st)
      else
        let merged := applyMedicationUpdate m b
        let errs := medUpdateValidatorErrors b merged
        if errs.isEmpty then
          (.success 200 (.medication merged),
           { st with medications :=
              st.medications.map (fun x => if x.id == mid then merged else x) })
        else
          (.failure 400 (joinMsgs errs), st)

/-- deleteMedication: resolve (404), parent profile check (401, also when
the parent is absent, in which case nothing is deleted), then the pull of
the id from currentMedications (removing every occurrence), save, and
deleteOne on the medication.  The pre deleteOne hook of the hook-bearing
model filters an id the controller already pulled, a no-op here. -/
def deleteMedication (st : Store) (user : ReqUser) (mid : Id) : ApiResponse × Store :=
  match findMedication st mid with
  | none => (.failure 404 "Medication not found", st)
  | some m =>
    match findProfile st m.patientId with
    | none => (.failure 401 "User is not authorized to delete this medication", st)
    | some p =>
      if ownershipFails p user then
        (.failure 401 "User is not authorized to delete this medication", st)
      else
        (.success 200 .empty,
         { st with
            profiles := st.profiles.map (fun q =>
              if q.id == m.patientId then
                { q with currentMedications :=
                    q.currentMedications.filter (fun i => i != mid) }
              else q)
            medications := st.medications.filter (fun x => x.id != mid) })

/-! ## routes/healthRecordRoutes.js — the validated pipelines

The POST and PUT routes run protect, validateObjectIdParam,
validateHealthRecordBody and handleValidationErrors before the
controller; a non-empty violation list short-circuits into the 400
failureList envelope. -/

def createHealthRecordRoute (now : Int) (st : Store) (user : ReqUser) (patientId : Id)
    (body : HealthRecordBody) : ApiResponse × Store :=
  let errs := mwValidateHealthRecordBody now body
  if errs.isEmpty then createHealthRecord now st user patientId body
  else (.failureList 400 errs, st)

def updateHealthRecordRoute (now : Int) (st : Store) (user : ReqUser) (rid : Id)
    (body : HealthRecordBody) : ApiResponse × Store :=
  let errs := mwValidateHealthRecordBody now body
  if errs.isEmpty then updateHealthRecord st user rid body
  else (.failureList 400 errs, st)

/-! ## Auxiliary notions for the stated properties -/

/-- Strictly more recent: the strict version of the descending sort
order of the list endpoints. -/
def recStrictAfter (a b : HealthRecord) : Prop := b.recordedAt < a.recordedAt

/-- The Medication to PatientProfile back-reference invariant: every
profile carries a duplicate-free currentMedications list holding exactly
the ids of the stored (non-deleted) medications that reference it; plus
the bookkeeping (fresh-id bound, unique document ids) that makes it
inductive. -/
def MedInv (st : Store) : Prop :=
  (∀ m ∈ st.medications, m.id < st.nextId) ∧
  (st.medications.map Medication.id).Nodup ∧
  (st.profiles.map PatientProfile.id).Nodup ∧
  (∀ p ∈ st.profiles,
    p.currentMedications.Nodup ∧
    (∀ i ∈ p.currentMedications, ∃ m ∈ st.medications, m.id = i ∧ m.patientId = p.id) ∧
    (∀ m ∈ st.medications, m.patientId = p.id → m.id ∈ p.currentMedications))

instance (st : Store) : Decidable (MedInv st) := by
  unfold MedInv; infer_instance

/-- The stores reachable from a well-formed store by any sequence of
addMedication and deleteMedication calls, with arbitrary requesters and
bodies. -/
inductive MedReachable : Store → Prop where
  | init (st : Store) : MedInv st → MedReachable st
  | add (st : Store) (u : ReqUser) (pid : Id) (b : MedicationBody) :
      MedReachable st → MedReachable (addMedication st u pid b).2
  | del (st : Store) (u : ReqUser) (mid : Id) :
      MedReachable st → MedReachable (deleteMedication st u mid).2

/-! ## Concrete fixtures used by witnesses and counterexamples -/

def demoProfile : PatientProfile :=
  { id := 1, userId := 10, name := "A", dateOfBirth := 0, gender := "Male",
    currentMedications := [3], healthRecords := [] }

def demoBp : HealthRecord :=
  { id := 2, patientId := 1, type := "blood_pressure", value := none, unit := none,
    systolic := some 120, diastolic := some 80, notes := "", recordedAt := 3,
    createdAt := 3 }

def demoMed : Medication :=
  { id := 3, patientId := 1, name := "Aspirin", dosage := "10mg",
    frequency := "Once daily", instructions := "", startDate := 1, endDate := none,
    status := "active" }

def demoStore : Store :=
  { profiles := [demoProfile], healthRecords := [demoBp], medications := [demoMed],
    nextId := 5 }

def ownerUser : ReqUser := { id := 10, role := "user" }

def intruderUser : ReqUser := { id := 20, role := "user" }

def demoFeatures : HealthDataBody :=
  { age := some 40, gender := some 1, height := some 170, weight := some 70,
    ap_hi := some 120, ap_lo := some 80, cholesterol := some 1, gluc := some 1,
    smoke := some 0, alco := some 0, active := some 1, notes := none }

/-! # Theorems -/

/-! ## C4 — the Access Guard rejection cases -/

/-- C4 (counterexample): the claim says the guard fails with HTTP 401 in
all four cases, but when the verified subject id resolves to no existing
User the protect middleware replies 404 (No user found with this ID), not
401. -/
theorem protect_unknown_user_is_404 :
    protect [] (TokenState.valid 7) = .reject 404 "No user found with this ID" ∧
    (404 : Nat) ≠ 401 := by
  exact ⟨rfl, by decide⟩

/-- C4 (amended): the Access Guard rejects in all four cases and never
reaches the handler there; a missing, malformed or expired credential is
rejected with 401, while a verified subject id resolving to no existing
User is rejected with 404, not 401. -/
theorem protect_guard_amended (users : List User) (uid : Id) :
    protect users TokenState.missing
      = .reject 401 "Not authorized to access this route" ∧
    protect users TokenState.malformed
      = .reject 401 "Not authorized, token failed" ∧
    protect users TokenState.expired
      = .reject 401 "Not authorized, token failed" ∧
    (users.find? (fun u => u.id == uid) = none →
      protect users (TokenState.valid uid) = .reject 404 "No user found with this ID") := by
  refine ⟨rfl, rfl, rfl, fun h => ?_⟩
  simp [protect, h]

/-- C4 (witness): the amended guard behaviour at a concrete user table
and token. -/
theorem protect_guard_amended_witness :
    (List.find? (fun u => u.id == 7) ([] : List User) = none) ∧
    protect [] TokenState.missing
      = .reject 401 "Not authorized to access this route" ∧
    protect [] (TokenState.valid 7) = .reject 404 "No user found with this ID" :=
  ⟨rfl, (protect_guard_amended [] 7).1, (protect_guard_amended [] 7).2.2.2 rfl⟩

/-! ## C8 — the Risk-Prediction Adapter failure surface -/

/-- C8 (counterexample): the claim says the adapter returns a structured
error value and never throws; callMlService throws the same opaque
Error (Failed to get prediction from ML service) for a non-2xx response,
for a missing response, and for a request-construction failure, carrying
neither the upstream status nor a distinguishing message. -/
theorem callMlService_throws_opaque :
    callMlService (MlOutcome.httpError 418 "teapot")
      = .error "Failed to get prediction from ML service" ∧
    callMlService MlOutcome.noResponse
      = .error "Failed to get prediction from ML service" ∧
    callMlService MlOutcome.setupError
      = .error "Failed to get prediction from ML service" :=
  ⟨rfl, rfl, rfl⟩

/-- C8 (amended): predictCvdRisk returns a structured error value for
each of the three failure outcomes, and its caller
recordPatientHealthData translates that value to the upstream HTTP
status (or 500); callMlService instead throws one generic error for
every failure, which its caller predictBpRisk catches and translates to
HTTP 500. -/
theorem prediction_adapter_errors_amended
    (s : Nat) (msg : String) (now : Int) (st : Store) (user : ReqUser) (pid : Id)
    (body : HealthDataBody) (outcome : MlOutcome) (m e : String) (stat : Option Nat)
    (p : PatientProfile) (latest : HealthRecord) :
    (predictCvdRisk (MlOutcome.httpError s msg)
       = .err ("ML service error: " ++ msg) (some s)) ∧
    (predictCvdRisk MlOutcome.noResponse = .err "ML service is unreachable" none) ∧
    (predictCvdRisk MlOutcome.setupError = .err "Error processing ML request" none) ∧
    (outcome.isFailure = true →
      callMlService outcome = .error "Failed to get prediction from ML service") ∧
    (findProfile st pid = some p → ownershipFails p user = false →
     missingFeatures body = false → predictCvdRisk outcome = .err m stat →
      (recordPatientHealthData now st user pid body outcome).1
        = .failure (stat.getD 500) m) ∧
    (findProfile st pid = some p → ownershipFails p user = false →
     (sortByRecordedAtDesc (st.healthRecords.filter
        (fun r => r.patientId == pid && r.type == "blood_pressure"))).head? = some latest →
     callMlService outcome = .error e →
      (predictBpRisk st user pid outcome).1 = .failure 500 e) := by
  refine ⟨rfl, rfl, rfl, fun hf => ?_, fun hp ho hm he => ?_, fun hp ho hl he => ?_⟩
  · cases outcome with
    | success c l h a => simp [MlOutcome.isFailure] at hf
    | httpError s m => rfl
    | noResponse => rfl
    | setupError => rfl
  · simp [recordPatientHealthData, hp, ho, hm, he]
  · simp [predictBpRisk, hp, ho, hl, he]

/-- C8 (witness): the amended adapter behaviour at concrete inputs: an
unreachable service during recordPatientHealthData gives a 500 failure
envelope with the structured message, and the thrown callMlService error
during predictBpRisk gives a 500 with the generic message. -/
theorem prediction_adapter_errors_amended_witness :
    ((MlOutcome.noResponse).isFailure = true ∧
     findProfile
       { profiles := [{ id := 1, userId := 10, name := "A", dateOfBirth := 0,
                        gender := "Male", currentMedications := [],
                        healthRecords := [] }],
         healthRecords := [{ id := 2, patientId := 1, type := "blood_pressure",
                             value := none, unit := none, systolic := some 120,
                             diastolic := some 80, notes := "", recordedAt := 3,
                             createdAt := 3 }],
         medications := [], nextId := 5 } 1
       = some { id := 1, userId := 10, name := "A", dateOfBirth := 0,
                gender := "Male", currentMedications := [], healthRecords := [] }) ∧
    (recordPatientHealthData 9
       { profiles := [{ id := 1, userId := 10, name := "A", dateOfBirth := 0,
                        gender := "Male", currentMedications := [],
                        healthRecords := [] }],
         healthRecords := [{ id := 2, patientId := 1, type := "blood_pressure",
                             value := none, unit := none, systolic := some 120,
                             diastolic := some 80, notes := "", recordedAt := 3,
                             createdAt := 3 }],
         medications := [], nextId := 5 }
       { id := 10, role := "user" } 1
       { age := some 40, gender := some 1, height := some 170, weight := some 70,
         ap_hi := some 120, ap_lo := some 80, cholesterol := some 1, gluc := some 1,
         smoke := some 0, alco := some 0, active := some 1, notes := none }
       MlOutcome.noResponse).1
      = .failure 500 "ML service is unreachable" ∧
    (predictBpRisk
       { profiles := [{ id := 1, userId := 10, name := "A", dateOfBirth := 0,
                        gender := "Male", currentMedications := [],
                        healthRecords := [] }],
         healthRecords := [{ id := 2, patientId := 1, type := "blood_pressure",
                             value := none, unit := none, systolic := some 120,
                             diastolic := some 80, notes := "", recordedAt := 3,
                             createdAt := 3 }],
         medications := [], nextId := 5 }
       { id := 10, role := "user" } 1 MlOutcome.noResponse).1
      = .failure 500 "Failed to get prediction from ML service" := by
  refine ⟨⟨by decide, by decide⟩, ?_, ?_⟩
  · exact (prediction_adapter_errors_amended 0 "" 9 _ _ 1 _ MlOutcome.noResponse
      "ML service is unreachable" "" none
      { id := 1, userId := 10, name := "A", dateOfBirth := 0, gender := "Male",
        currentMedications := [], healthRecords := [] }
      { id := 2, patientId := 1, type := "blood_pressure", value := none,
        unit := none, systolic := some 120, diastolic := some 80, notes := "",
        recordedAt := 3, createdAt := 3 }).2.2.2.2.1
      (by decide) (by decide) (by decide) (by decide)
  · exact (prediction_adapter_errors_amended 0 "" 9 _ _ 1
      { age := some 40, gender := some 1, height := some 170, weight := some 70,
        ap_hi := some 120, ap_lo := some 80, cholesterol := some 1, gluc := some 1,
        smoke := some 0, alco := some 0, active := some 1, notes := none }
      MlOutcome.noResponse "" "Failed to get prediction from ML service" none
      { id := 1, userId := 10, name := "A", dateOfBirth := 0, gender := "Male",
        currentMedications := [], healthRecords := [] }
      { id := 2, patientId := 1, type := "blood_pressure", value := none,
        unit := none, systolic := some 120, diastolic := some 80, notes := "",
        recordedAt := 3, createdAt := 3 }).2.2.2.2.2
      (by decide) (by decide) (by decide) rfl

/-! ## C9 — create-profile owner pinning -/

/-- C9: every profile stored by createPatientProfile carries the
authenticated principals id as its userId: the handler overwrites
req.body.userId with req.user.id before persisting, whatever userId the
request body supplied. -/
theorem createProfile_userId_overwritten (st : Store) (user : ReqUser)
    (body : ProfileBody)
    (h : ((createPatientProfile st user body).1).statusOf = 201) :
    ∃ p, (createPatientProfile st user body).2.profiles = st.profiles ++ [p] ∧
      p.userId = user.id := by
  by_cases he : (profileValidateErrors { body with userId := some user.id }).isEmpty
  · refine ⟨{ id := st.nextId, userId := user.id,
              name := strTrim (body.name.getD ""),
              dateOfBirth := body.dateOfBirth.getD 0,
              gender := body.gender.getD "", currentMedications := [],
              healthRecords := [] }, ?_, rfl⟩
    simp [createPatientProfile, he]
  · simp [createPatientProfile, he, ApiResponse.statusOf] at h

/-- C9 (witness): a body claiming userId 999 still yields a profile owned
by the requesting user 10. -/
theorem createProfile_userId_overwritten_witness :
    (((createPatientProfile demoStore ownerUser
        { userId := some 999, name := some "B", dateOfBirth := some 1,
          gender := some "Female" }).1).statusOf = 201) ∧
    ∃ p, (createPatientProfile demoStore ownerUser
        { userId := some 999, name := some "B", dateOfBirth := some 1,
          gender := some "Female" }).2.profiles = demoStore.profiles ++ [p] ∧
      p.userId = ownerUser.id :=
  ⟨by decide, createProfile_userId_overwritten _ _ _ (by decide)⟩

/-! ## C2 — prediction-failure isolation -/

/-- C2: when the predictCvdRisk call comes back with its structured
error, recordPatientHealthData leaves the store (in particular the
patients embedded healthRecords) untouched and replies with that error
and its status (500 when the error carries none). -/
theorem prediction_failure_preserves_profile
    (now : Int) (st : Store) (user : ReqUser) (pid : Id) (body : HealthDataBody)
    (outcome : MlOutcome) (p : PatientProfile) (m : String) (stat : Option Nat)
    (hp : findProfile st pid = some p)
    (ho : ownershipFails p user = false)
    (hf : missingFeatures body = false)
    (he : predictCvdRisk outcome = .err m stat) :
    (recordPatientHealthData now st user pid body outcome).2 = st ∧
    (recordPatientHealthData now st user pid body outcome).1
      = .failure (stat.getD 500) m := by
  constructor <;> simp [recordPatientHealthData, hp, ho, hf, he]

/-- C2 (witness): a 503 from the remote service on the demo store: no
store change and the structured error with the upstream status. -/
theorem prediction_failure_preserves_profile_witness :
    (findProfile demoStore 1 = some demoProfile ∧
     ownershipFails demoProfile ownerUser = false ∧
     missingFeatures demoFeatures = false ∧
     predictCvdRisk (MlOutcome.httpError 503 "svc down")
       = .err "ML service error: svc down" (some 503)) ∧
    (recordPatientHealthData 9 demoStore ownerUser 1 demoFeatures
        (MlOutcome.httpError 503 "svc down")).2 = demoStore ∧
    (recordPatientHealthData 9 demoStore ownerUser 1 demoFeatures
        (MlOutcome.httpError 503 "svc down")).1
      = .failure 503 "ML service error: svc down" :=
  ⟨⟨by decide, by decide, by decide, by decide⟩,
   (prediction_failure_preserves_profile 9 demoStore ownerUser 1 demoFeatures
      (MlOutcome.httpError 503 "svc down") demoProfile "ML service error: svc down"
      (some 503) (by decide) (by decide) (by decide) (by decide)).1,
   (prediction_failure_preserves_profile 9 demoStore ownerUser 1 demoFeatures
      (MlOutcome.httpError 503 "svc down") demoProfile "ML service error: svc down"
      (some 503) (by decide) (by decide) (by decide) (by decide)).2⟩

/-! ## C10 — profile deletion does not cascade -/

lemma find?_profile_filter_ne (l : List PatientProfile) (pid : Id) :
    (l.filter (fun q => q.id != pid)).find? (fun p => p.id == pid) = none := by
  apply List.find?_eq_none.mpr
  intro x hx
  have hne := List.of_mem_filter hx
  simp only [bne_iff_ne, ne_eq] at hne
  simp [hne]

/-- C10: deletePatientProfile removes only the profile document; the
standalone health records and medications referencing it survive
unchanged, the profile id no longer resolves, and a subsequent by-id read
of a surviving record or medication takes the parent-profile-absent 401
branch of the ownership check. -/
theorem deleteProfile_no_cascade
    (st : Store) (user : ReqUser) (pid rid mid : Id) (p : PatientProfile)
    (hr : HealthRecord) (med : Medication)
    (hp : findProfile st pid = some p)
    (ho : ownershipFails p user = false)
    (hhr : findHealthRecord st rid = some hr) (hhrp : hr.patientId = pid)
    (hmed : findMedication st mid = some med) (hmedp : med.patientId = pid) :
    (deletePatientProfile st user pid).1 = .success 200 .empty ∧
    (deletePatientProfile st user pid).2.healthRecords = st.healthRecords ∧
    (deletePatientProfile st user pid).2.medications = st.medications ∧
    (deletePatientProfile st user pid).2.profiles
      = st.profiles.filter (fun q => q.id != pid) ∧
    findProfile (deletePatientProfile st user pid).2 pid = none ∧
    (getHealthRecord (deletePatientProfile st user pid).2 user rid).1
      = .failure 401 "User is not authorized to view this health record" ∧
    (getMedication (deletePatientProfile st user pid).2 user mid).1
      = .failure 401 "User is not authorized to view this medication" := by
  have hst : (deletePatientProfile st user pid).2
      = { st with profiles := st.profiles.filter (fun q => q.id != pid) } := by
    simp [deletePatientProfile, hp, ho]
  have hnone : findProfile (deletePatientProfile st user pid).2 pid = none := by
    rw [hst]
    exact find?_profile_filter_ne st.profiles pid
  refine ⟨by simp [deletePatientProfile, hp, ho], by rw [hst], by rw [hst],
    by rw [hst], hnone, ?_, ?_⟩
  · have hfind : findHealthRecord (deletePatientProfile st user pid).2 rid = some hr := by
      rw [show findHealthRecord (deletePatientProfile st user pid).2 rid
            = findHealthRecord st rid from by rw [hst]; rfl]
      exact hhr
    simp [getHealthRecord, hfind, hhrp, hnone]
  · have hfind : findMedication (deletePatientProfile st user pid).2 mid = some med := by
      rw [show findMedication (deletePatientProfile st user pid).2 mid
            = findMedication st mid from by rw [hst]; rfl]
      exact hmed
    simp [getMedication, hfind, hmedp, hnone]

/-- C10 (witness): deleting the demo profile leaves its blood-pressure
record and medication in place and strands their by-id reads on the 401
branch. -/
theorem deleteProfile_no_cascade_witness :
    (findProfile demoStore 1 = some demoProfile ∧
     ownershipFails demoProfile ownerUser = false ∧
     findHealthRecord demoStore 2 = some demoBp ∧ demoBp.patientId = 1 ∧
     findMedication demoStore 3 = some demoMed ∧ demoMed.patientId = 1) ∧
    (deletePatientProfile demoStore ownerUser 1).2.healthRecords
      = demoStore.healthRecords ∧
    (deletePatientProfile demoStore ownerUser 1).2.medications
      = demoStore.medications ∧
    (getHealthRecord (deletePatientProfile demoStore ownerUser 1).2 ownerUser 2).1
      = .failure 401 "User is not authorized to view this health record" ∧
    (getMedication (deletePatientProfile demoStore ownerUser 1).2 ownerUser 3).1
      = .failure 401 "User is not authorized to view this medication" :=
  ⟨⟨by decide, by decide, by decide, by decide, by decide, by decide⟩,
   (deleteProfile_no_cascade demoStore ownerUser 1 2 3 demoProfile demoBp demoMed
      (by decide) (by decide) (by decide) (by decide) (by decide) (by decide)).2.1,
   (deleteProfile_no_cascade demoStore ownerUser 1 2 3 demoProfile demoBp demoMed
      (by decide) (by decide) (by decide) (by decide) (by decide) (by decide)).2.2.1,
   (deleteProfile_no_cascade demoStore ownerUser 1 2 3 demoProfile demoBp demoMed
      (by decide) (by decide) (by decide) (by decide) (by decide) (by decide)).2.2.2.2.2.1,
   (deleteProfile_no_cascade demoStore ownerUser 1 2 3 demoProfile demoBp demoMed
      (by decide) (by decide) (by decide) (by decide) (by decide) (by decide)).2.2.2.2.2.2⟩

/-! ## C1 — ownership gates every patient-scoped operation -/

lemma ownershipFails_of_ne (p : PatientProfile) (u : ReqUser)
    (h1 : p.userId ≠ u.id) (h2 : u.role ≠ "admin") : ownershipFails p u = true := by
  simp [ownershipFails, h1, h2]

/-- C1: for a principal who is not the owner of the resolved
PatientProfile and not an admin, every patient-scoped operation — health
record create/list/list-by-type/get/update/delete, profile
get/update/delete, medication add/list/get/update/delete, and the two
prediction endpoints — replies with the 401 Forbidden failure envelope
and leaves the store untouched. -/
theorem ownership_forbidden
    (now : Int) (st : Store) (user : ReqUser) (pid rid mid : Id) (ty : String)
    (p : PatientProfile) (hr : HealthRecord) (med : Medication)
    (hbody : HealthRecordBody) (pbody : ProfileBody) (mbody : MedicationBody)
    (hdbody : HealthDataBody) (outcome : MlOutcome)
    (hp : findProfile st pid = some p)
    (hOwn : p.userId ≠ user.id) (hRole : user.role ≠ "admin")
    (hhr : findHealthRecord st rid = some hr) (hhrp : hr.patientId = pid)
    (hmed : findMedication st mid = some med) (hmedp : med.patientId = pid) :
    ((createHealthRecord now st user pid hbody).1.isForbidden = true ∧
      (createHealthRecord now st user pid hbody).2 = st) ∧
    ((getHealthRecordsForPatient st user pid).1.isForbidden = true ∧
      (getHealthRecordsForPatient st user pid).2 = st) ∧
    ((getHealthRecordsByTypeForPatient st user pid ty).1.isForbidden = true ∧
      (getHealthRecordsByTypeForPatient st user pid ty).2 = st) ∧
    ((getHealthRecord st user rid).1.isForbidden = true ∧
      (getHealthRecord st user rid).2 = st) ∧
    ((updateHealthRecord st user rid hbody).1.isForbidden = true ∧
      (updateHealthRecord st user rid hbody).2 = st) ∧
    ((deleteHealthRecord st user rid).1.isForbidden = true ∧
      (deleteHealthRecord st user rid).2 = st) ∧
    ((getPatientProfile st user pid).1.isForbidden = true ∧
      (getPatientProfile st user pid).2 = st) ∧
    ((updatePatientProfile st user pid pbody).1.isForbidden = true ∧
      (updatePatientProfile st user pid pbody).2 = st) ∧
    ((deletePatientProfile st user pid).1.isForbidden = true ∧
      (deletePatientProfile st user pid).2 = st) ∧
    ((addMedication st user pid mbody).1.isForbidden = true ∧
      (addMedication st user pid mbody).2 = st) ∧
    ((getMedicationsForPatient st user pid).1.isForbidden = true ∧
      (getMedicationsForPatient st user pid).2 = st) ∧
    ((getMedication st user mid).1.isForbidden = true ∧
      (getMedication st user mid).2 = st) ∧
    ((updateMedication st user mid mbody).1.isForbidden = true ∧
      (updateMedication st user mid mbody).2 = st) ∧
    ((deleteMedication st user mid).1.isForbidden = true ∧
      (deleteMedication st user mid).2 = st) ∧
    ((recordPatientHealthData now st user pid hdbody outcome).1.isForbidden = true ∧
      (recordPatientHealthData now st user pid hdbody outcome).2 = st) ∧
    ((predictBpRisk st user pid outcome).1.isForbidden = true ∧
      (predictBpRisk st user pid outcome).2 = st) := by
  have hof := ownershipFails_of_ne p user hOwn hRole
  refine ⟨?_, ?_, ?_, ?_, ?_, ?_, ?_, ?_, ?_, ?_, ?_, ?_, ?_, ?_, ?_, ?_⟩
  · constructor <;> simp [createHealthRecord, hp, hof, ApiResponse.isForbidden]
  · constructor <;> simp [getHealthRecordsForPatient, hp, hof, ApiResponse.isForbidden]
  · constructor <;>
      simp [getHealthRecordsByTypeForPatient, hp, hof, ApiResponse.isForbidden]
  · constructor <;> simp [getHealthRecord, hhr, hhrp, hp, hof, ApiResponse.isForbidden]
  · constructor <;>
      simp [updateHealthRecord, hhr, hhrp, hp, hof, ApiResponse.isForbidden]
  · constructor <;>
      simp [deleteHealthRecord, hhr, hhrp, hp, hof, ApiResponse.isForbidden]
  · constructor <;> simp [getPatientProfile, hp, hof, ApiResponse.isForbidden]
  · constructor <;> simp [updatePatientProfile, hp, hof, ApiResponse.isForbidden]
  · constructor <;> simp [deletePatientProfile, hp, hof, ApiResponse.isForbidden]
  · constructor <;> simp [addMedication, hp, hof, ApiResponse.isForbidden]
  · constructor <;> simp [getMedicationsForPatient, hp, hof, ApiResponse.isForbidden]
  · constructor <;> simp [getMedication, hmed, hmedp, hp, hof, ApiResponse.isForbidden]
  · constructor <;> simp [updateMedication, hmed, hmedp, hp, hof, ApiResponse.isForbidden]
  · constructor <;> simp [deleteMedication, hmed, hmedp, hp, hof, ApiResponse.isForbidden]
  · constructor <;> simp [recordPatientHealthData, hp, hof, ApiResponse.isForbidden]
  · constructor <;> simp [predictBpRisk, hp, hof, ApiResponse.isForbidden]

/-- C1 (witness): user 20 on the demo store owned by user 10: every
operation is rejected with the 401 envelope and the store is unchanged;
stated here for the two endpoints of each kind, the rest instantiated
identically by the theorem. -/
theorem ownership_forbidden_witness :
    (findProfile demoStore 1 = some demoProfile ∧
     demoProfile.userId ≠ intruderUser.id ∧ intruderUser.role ≠ "admin" ∧
     findHealthRecord demoStore 2 = some demoBp ∧ demoBp.patientId = 1 ∧
     findMedication demoStore 3 = some demoMed ∧ demoMed.patientId = 1) ∧
    ((createHealthRecord 9 demoStore intruderUser 1
        { type := some "weight", value := some 70, unit := some "kg",
          systolic := none, diastolic := none, notes := none,
          recordedAt := some 3 }).1.isForbidden = true ∧
     (createHealthRecord 9 demoStore intruderUser 1
        { type := some "weight", value := some 70, unit := some "kg",
          systolic := none, diastolic := none, notes := none,
          recordedAt := some 3 }).2 = demoStore) ∧
    ((deleteMedication demoStore intruderUser 3).1.isForbidden = true ∧
     (deleteMedication demoStore intruderUser 3).2 = demoStore) ∧
    ((recordPatientHealthData 9 demoStore intruderUser 1 demoFeatures
        MlOutcome.noResponse).1.isForbidden = true ∧
     (recordPatientHealthData 9 demoStore intruderUser 1 demoFeatures
        MlOutcome.noResponse).2 = demoStore) := by
  have h := ownership_forbidden 9 demoStore intruderUser 1 2 3 "weight"
    demoProfile demoBp demoMed
    { type := some "weight", value := some 70, unit := some "kg",
      systolic := none, diastolic := none, notes := none, recordedAt := some 3 }
    { userId := none, name := none, dateOfBirth := none, gender := none }
    { name := none, dosage := none, frequency := none, instructions := none,
      startDate := none, endDate := none, status := none }
    demoFeatures MlOutcome.noResponse
    (by decide) (by decide) (by decide) (by decide) (by decide) (by decide) (by decide)
  exact ⟨⟨by decide, by decide, by decide, by decide, by decide, by decide, by decide⟩,
    h.1, h.2.2.2.2.2.2.2.2.2.2.2.2.2.1, h.2.2.2.2.2.2.2.2.2.2.2.2.2.2.1⟩

/-! ## C6 — listForPatient ordering -/

instance : IsTotal HealthRecord recAfter :=
  ⟨fun a b => le_total b.recordedAt a.recordedAt⟩

instance : IsTrans HealthRecord recAfter :=
  ⟨fun _ _ _ hab hbc => le_trans hbc hab⟩

instance : IsAntisymm HealthRecord recStrictAfter :=
  ⟨fun _ _ h h' => absurd h (lt_asymm h')⟩

lemma sortByRecordedAtDesc_perm (l : List HealthRecord) :
    List.Perm (sortByRecordedAtDesc l) l :=
  List.perm_insertionSort recAfter l

lemma sortByRecordedAtDesc_sorted (l : List HealthRecord) :
    (sortByRecordedAtDesc l).Pairwise recAfter :=
  List.sorted_insertionSort recAfter l

/-- With pairwise-distinct recordedAt keys the weakly descending order is
strictly descending. -/
lemma sortByRecordedAtDesc_strict (l : List HealthRecord)
    (hnd : (l.map HealthRecord.recordedAt).Nodup) :
    (sortByRecordedAtDesc l).Pairwise recStrictAfter := by
  have hperm := sortByRecordedAtDesc_perm l
  have hnd2 : ((sortByRecordedAtDesc l).map HealthRecord.recordedAt).Nodup :=
    (List.Perm.nodup_iff (List.Perm.map _ hperm)).mpr hnd
  have hne : (sortByRecordedAtDesc l).Pairwise
      (fun a b => a.recordedAt ≠ b.recordedAt) := List.pairwise_map.mp hnd2
  have hw := sortByRecordedAtDesc_sorted l
  refine ((hw.and hne).imp ?_)
  intro a b hab
  exact lt_of_le_of_ne hab.1 (Ne.symm hab.2)

/-- C6: for an authorized list of a patients records whose recordedAt
values are pairwise distinct, getHealthRecordsForPatient returns exactly
the sorted filter of that patients records, a permutation of them in
strictly descending recordedAt order, without touching the store; in
particular three records with recordedAt t1 less than t2 less than t3,
stored in any order, come back as the list t3, t2, t1. -/
theorem listForPatient_sorted_desc
    (st : Store) (user : ReqUser) (pid : Id) (p : PatientProfile)
    (r1 r2 r3 : HealthRecord)
    (hp : findProfile st pid = some p)
    (ho : ownershipFails p user = false)
    (hnd : ((st.healthRecords.filter (fun r => r.patientId == pid)).map
              HealthRecord.recordedAt).Nodup) :
    ((getHealthRecordsForPatient st user pid).1
       = .success 200 (.records (sortByRecordedAtDesc
           (st.healthRecords.filter (fun r => r.patientId == pid)))) ∧
     List.Perm
       (sortByRecordedAtDesc (st.healthRecords.filter (fun r => r.patientId == pid)))
       (st.healthRecords.filter (fun r => r.patientId == pid)) ∧
     (sortByRecordedAtDesc (st.healthRecords.filter (fun r => r.patientId == pid))).Pairwise
       recStrictAfter ∧
     (getHealthRecordsForPatient st user pid).2 = st) ∧
    (List.Perm (st.healthRecords.filter (fun r => r.patientId == pid)) [r1, r2, r3] →
     r1.recordedAt < r2.recordedAt → r2.recordedAt < r3.recordedAt →
     (getHealthRecordsForPatient st user pid).1
       = .success 200 (.records [r3, r2, r1])) := by
  have hresp : (getHealthRecordsForPatient st user pid).1
      = .success 200 (.records (sortByRecordedAtDesc
          (st.healthRecords.filter (fun r => r.patientId == pid)))) := by
    simp [getHealthRecordsForPatient, hp, ho]
  refine ⟨⟨hresp, sortByRecordedAtDesc_perm _, sortByRecordedAtDesc_strict _ hnd,
    by simp [getHealthRecordsForPatient, hp, ho]⟩, fun hperm h12 h23 => ?_⟩
  have hrev : [r1, r2, r3].reverse = [r3, r2, r1] := rfl
  have hperm2 : List.Perm (sortByRecordedAtDesc
      (st.healthRecords.filter (fun r => r.patientId == pid))) [r3, r2, r1] := by
    refine ((sortByRecordedAtDesc_perm _).trans hperm).trans ?_
    rw [← hrev]
    exact (List.reverse_perm _).symm
  have hstrict2 : ([r3, r2, r1] : List HealthRecord).Pairwise recStrictAfter := by
    refine List.Pairwise.cons ?_ (List.Pairwise.cons ?_ (by simp))
    · intro b hb
      rcases List.mem_cons.mp hb with hb | hb
      · rw [hb]; exact h23
      · have hb2 : b = r1 := by simpa using hb
        rw [hb2]; exact lt_trans h12 h23
    · intro b hb
      have hb2 : b = r1 := by simpa using hb
      rw [hb2]; exact h12
  have heq : sortByRecordedAtDesc
      (st.healthRecords.filter (fun r => r.patientId == pid)) = [r3, r2, r1] :=
    List.eq_of_perm_of_sorted hperm2 (sortByRecordedAtDesc_strict _ hnd) hstrict2
  rw [hresp, heq]

/-- C6 (witness): three records with recordedAt 3, 7, 5 inserted in that
order come back ordered 7, 5, 3. -/
theorem listForPatient_sorted_desc_witness :
    (findProfile
       { profiles := [demoProfile],
         healthRecords :=
           [{ demoBp with id := 2, recordedAt := 3 },
            { demoBp with id := 6, recordedAt := 7 },
            { demoBp with id := 7, recordedAt := 5 }],
         medications := [], nextId := 8 } 1 = some demoProfile ∧
     ownershipFails demoProfile ownerUser = false ∧
     (List.map HealthRecord.recordedAt
       (List.filter (fun r => r.patientId == 1)
         [{ demoBp with id := 2, recordedAt := 3 },
          { demoBp with id := 6, recordedAt := 7 },
          { demoBp with id := 7, recordedAt := 5 }])).Nodup ∧
     (List.Perm (List.filter (fun r => r.patientId == 1)
         [{ demoBp with id := 2, recordedAt := 3 },
          { demoBp with id := 6, recordedAt := 7 },
          { demoBp with id := 7, recordedAt := 5 }])
        [{ demoBp with id := 2, recordedAt := 3 },
         { demoBp with id := 7, recordedAt := 5 },
         { demoBp with id := 6, recordedAt := 7 }])) ∧
    (getHealthRecordsForPatient
       { profiles := [demoProfile],
         healthRecords :=
           [{ demoBp with id := 2, recordedAt := 3 },
            { demoBp with id := 6, recordedAt := 7 },
            { demoBp with id := 7, recordedAt := 5 }],
         medications := [], nextId := 8 } ownerUser 1).1
      = .success 200 (.records
          [{ demoBp with id := 6, recordedAt := 7 },
           { demoBp with id := 7, recordedAt := 5 },
           { demoBp with id := 2, recordedAt := 3 }]) :=
  ⟨⟨by decide, by decide, by decide, by decide⟩,
   (listForPatient_sorted_desc
      { profiles := [demoProfile],
        healthRecords :=
          [{ demoBp with id := 2, recordedAt := 3 },
           { demoBp with id := 6, recordedAt := 7 },
           { demoBp with id := 7, recordedAt := 5 }],
        medications := [], nextId := 8 } ownerUser 1 demoProfile
      { demoBp with id := 2, recordedAt := 3 }
      { demoBp with id := 7, recordedAt := 5 }
      { demoBp with id := 6, recordedAt := 7 }
      (by decide) (by decide) (by decide)).2 (by decide) (by decide) (by decide)⟩

/-! ## C3 and C7 — validation of blood-pressure writes -/

lemma mw_empty_parts (now : Int) (b : HealthRecordBody)
    (h : mwValidateHealthRecordBody now b = []) :
    mwTypeErrors b = [] ∧ mwRecordedAtErrors now b = [] ∧ mwNotesErrors b = [] ∧
    mwValueErrors b = [] ∧ mwUnitErrors b = [] ∧ mwSystolicErrors b = [] ∧
    mwDiastolicErrors b = [] := by
  simp only [mwValidateHealthRecordBody, List.append_eq_nil] at h
  tauto

lemma mongoose_empty_parts (r : HealthRecord)
    (h : mongooseValidateHealthRecord r = []) :
    hrPreValidateErrors r = [] ∧ hrPathErrors r = [] := by
  simp only [mongooseValidateHealthRecord] at h
  have h2 := List.append_eq_nil.mp h
  refine ⟨h2.1, ?_⟩
  have h3 := h2.2
  rw [h2.1] at h3
  simpa using h3

/-- A validated stored blood-pressure document has no value and carries
both pressure components. -/
lemma mongoose_bp_shape (r : HealthRecord)
    (h : mongooseValidateHealthRecord r = [])
    (ht : r.type = "blood_pressure") :
    r.value = none ∧ (∃ s, r.systolic = some s) ∧ ∃ d, r.diastolic = some d := by
  obtain ⟨hpre, hpath⟩ := mongoose_empty_parts r h
  refine ⟨?_, ?_, ?_⟩
  · by_cases hv : r.value.isSome
    · exfalso; simp [hrPreValidateErrors, ht, hv] at hpre
    · simpa [Option.isSome_iff_exists, Option.eq_none_iff_forall_not_mem] using hv
  · cases hsys : r.systolic with
    | none => exfalso; simp [hrPathErrors, ht, hsys] at hpath
    | some s => exact ⟨s, rfl⟩
  · cases hdia : r.diastolic with
    | none => exfalso; simp [hrPathErrors, ht, hdia] at hpath
    | some d => exact ⟨d, rfl⟩

/-- A blood-pressure document missing systolic or diastolic fails schema
validation. -/
lemma mongoose_bp_missing (r : HealthRecord) (ht : r.type = "blood_pressure")
    (hs : r.systolic = none ∨ r.diastolic = none) :
    mongooseValidateHealthRecord r ≠ [] := by
  intro h
  obtain ⟨hpre, hpath⟩ := mongoose_empty_parts r h
  rcases hs with hs | hs
  · simp [hrPathErrors, ht, hs] at hpath
  · simp [hrPathErrors, ht, hs] at hpath

/-- A body giving a value together with the blood_pressure type fails the
middleware. -/
lemma mw_bp_value_rejected (now : Int) (b : HealthRecordBody)
    (ht : mwBodyType b = "blood_pressure") (hv : b.value.isSome = true) :
    mwValidateHealthRecordBody now b ≠ [] := by
  intro h
  obtain ⟨_, _, _, hval, _, _, _⟩ := mw_empty_parts now b h
  obtain ⟨v, hv2⟩ := Option.isSome_iff_exists.mp hv
  simp [mwValueErrors, hv2, ht] at hval

/-- C3 (counterexample): the claim says a stored blood-pressure record
has no unit field and that updates obey the same invariant; but (first
part) a create supplying systolic, diastolic AND a unit succeeds and
stores the unit, since no rule forbids unit for blood_pressure; and
(second part) an update that changes a stored glucose records type to
blood_pressure leaves the old value field in place, because
findByIdAndUpdate skips the document pre-validate hook and validates
only the supplied paths. -/
theorem bp_unit_and_stale_value_counterexample :
    ((createHealthRecordRoute 10 demoStore ownerUser 1
        { type := some "blood_pressure", value := none, unit := some "mmHg",
          systolic := some 120, diastolic := some 80, notes := none,
          recordedAt := some 5 }).1.statusOf = 201 ∧
     (createHealthRecordRoute 10 demoStore ownerUser 1
        { type := some "blood_pressure", value := none, unit := some "mmHg",
          systolic := some 120, diastolic := some 80, notes := none,
          recordedAt := some 5 }).2.healthRecords.map HealthRecord.unit
       = [none, some "mmHg"]) ∧
    ((updateHealthRecordRoute 10
        { profiles := [demoProfile],
          healthRecords := [{ id := 2, patientId := 1, type := "glucose",
                              value := some 5, unit := some "mg/dL",
                              systolic := none, diastolic := none, notes := "",
                              recordedAt := 3, createdAt := 3 }],
          medications := [], nextId := 5 } ownerUser 2
        { type := some "blood_pressure", value := none, unit := none,
          systolic := some 120, diastolic := some 80, notes := none,
          recordedAt := some 4 }).1.statusOf = 200 ∧
     (updateHealthRecordRoute 10
        { profiles := [demoProfile],
          healthRecords := [{ id := 2, patientId := 1, type := "glucose",
                              value := some 5, unit := some "mg/dL",
                              systolic := none, diastolic := none, notes := "",
                              recordedAt := 3, createdAt := 3 }],
          medications := [], nextId := 5 } ownerUser 2
        { type := some "blood_pressure", value := none, unit := none,
          systolic := some 120, diastolic := some 80, notes := none,
          recordedAt := some 4 }).2.healthRecords.map
            (fun r => (r.type, r.value))
       = [("blood_pressure", some (5 : Rat))]) := by
  exact ⟨⟨by decide, by decide⟩, ⟨by decide, by decide⟩⟩

/-- C3 (amended): a successful create through the validated route whose
stored record is typed blood_pressure stores non-negative integer
systolic and diastolic values and no value field (the unit field is not
forbidden and may be stored); a create supplying a value for this type,
or omitting systolic or diastolic, fails with the 400 validation error
and stores nothing; an update supplying a value together with the
blood_pressure type is likewise rejected, though a type-changing update
does not clear a previously stored value. -/
theorem bp_write_invariant_amended
    (now : Int) (st : Store) (user : ReqUser) (pid rid : Id)
    (body : HealthRecordBody) (p : PatientProfile) (rec : HealthRecord) :
    (((createHealthRecordRoute now st user pid body).1
        = .success 201 (.record rec)) →
      rec.type = "blood_pressure" →
      (rec.value = none ∧
       (∃ s, rec.systolic = some s ∧ ratIsNonnegInt s = true) ∧
       (∃ d, rec.diastolic = some d ∧ ratIsNonnegInt d = true) ∧
       (createHealthRecordRoute now st user pid body).2.healthRecords
         = st.healthRecords ++ [rec])) ∧
    (mwBodyType body = "blood_pressure" → body.value.isSome = true →
      ((createHealthRecordRoute now st user pid body).1.statusOf = 400 ∧
       (createHealthRecordRoute now st user pid body).2 = st)) ∧
    (mwBodyType body = "blood_pressure" →
     (body.systolic = none ∨ body.diastolic = none) →
     findProfile st pid = some p → ownershipFails p user = false →
      ((createHealthRecordRoute now st user pid body).1.statusOf = 400 ∧
       (createHealthRecordRoute now st user pid body).2 = st)) ∧
    (mwBodyType body = "blood_pressure" → body.value.isSome = true →
      ((updateHealthRecordRoute now st user rid body).1.statusOf = 400 ∧
       (updateHealthRecordRoute now st user rid body).2 = st)) := by
  refine ⟨fun h ht => ?_, fun ht hv => ?_, fun ht hsd hfp hof => ?_, fun ht hv => ?_⟩
  · by_cases hmw : (mwValidateHealthRecordBody now body).isEmpty
    · rw [show createHealthRecordRoute now st user pid body
            = createHealthRecord now st user pid body from by
          simp [createHealthRecordRoute, hmw]] at h ⊢
      cases hfp : findProfile st pid with
      | none => rw [show (createHealthRecord now st user pid body).1
            = .failure 404 "Patient profile not found" from by
          simp [createHealthRecord, hfp]] at h; cases h
      | some p =>
        by_cases hof : ownershipFails p user
        · simp [createHealthRecord, hfp, hof] at h
        · by_cases hme : (mongooseValidateHealthRecord
              (buildHealthRecordDoc now st.nextId pid body)).isEmpty
          · have hrec : buildHealthRecordDoc now st.nextId pid body = rec := by
              have h2 := h
              simp [createHealthRecord, hfp, hof, hme] at h2
              exact h2
            have hme2 : mongooseValidateHealthRecord
                (buildHealthRecordDoc now st.nextId pid body) = [] :=
              List.isEmpty_iff.mp hme
            rw [hrec] at hme2
            obtain ⟨hvnone, ⟨s, hs⟩, ⟨d, hd⟩⟩ := mongoose_bp_shape rec hme2 ht
            have hbs : body.systolic = some s := by rw [← hrec] at hs; exact hs
            have hbd : body.diastolic = some d := by rw [← hrec] at hd; exact hd
            obtain ⟨_, _, _, _, _, hsys, hdia⟩ :=
              mw_empty_parts now body (List.isEmpty_iff.mp hmw)
            have hsint : ratIsNonnegInt s = true := by
              by_cases hsi : ratIsNonnegInt s
              · exact hsi
              · simp [mwSystolicErrors, hbs, hsi] at hsys
            have hdint : ratIsNonnegInt d = true := by
              by_cases hdi : ratIsNonnegInt d
              · exact hdi
              · simp [mwDiastolicErrors, hbd, hdi] at hdia
            refine ⟨hvnone, ⟨s, hs, hsint⟩, ⟨d, hd, hdint⟩, ?_⟩
            simp [createHealthRecord, hfp, hof, hrec, hme2]
          · simp [createHealthRecord, hfp, hof, hme] at h
    · simp [createHealthRecordRoute, hmw] at h
  · have hne := mw_bp_value_rejected now body ht hv
    have hmw : (mwValidateHealthRecordBody now body).isEmpty = false := by
      simpa [List.isEmpty_iff] using hne
    constructor <;> simp [createHealthRecordRoute, hmw, ApiResponse.statusOf]
  · by_cases hmw : (mwValidateHealthRecordBody now body).isEmpty
    · have hdt : (buildHealthRecordDoc now st.nextId pid body).type
          = "blood_pressure" := by
        show strLower (strTrim (body.type.getD "")) = "blood_pressure"
        rw [show strTrim (body.type.getD "") = "blood_pressure" from ht]
        decide
      have hds : (buildHealthRecordDoc now st.nextId pid body).systolic
          = body.systolic := rfl
      have hdd : (buildHealthRecordDoc now st.nextId pid body).diastolic
          = body.diastolic := rfl
      have hor : (buildHealthRecordDoc now st.nextId pid body).systolic = none ∨
          (buildHealthRecordDoc now st.nextId pid body).diastolic = none := by
        rcases hsd with h | h
        · exact Or.inl (hds.trans h)
        · exact Or.inr (hdd.trans h)
      have hne := mongoose_bp_missing (buildHealthRecordDoc now st.nextId pid body)
        hdt hor
      have hme : (mongooseValidateHealthRecord
          (buildHealthRecordDoc now st.nextId pid body)).isEmpty = false := by
        simpa [List.isEmpty_iff] using hne
      constructor <;>
        simp [createHealthRecordRoute, createHealthRecord, hmw, hfp, hof, hme,
          ApiResponse.statusOf]
    · constructor <;> simp [createHealthRecordRoute, hmw, ApiResponse.statusOf]
  · have hne := mw_bp_value_rejected now body ht hv
    have hmw : (mwValidateHealthRecordBody now body).isEmpty = false := by
      simpa [List.isEmpty_iff] using hne
    constructor <;> simp [updateHealthRecordRoute, hmw, ApiResponse.statusOf]

/-- C3 (witness): on the demo store, a valid blood-pressure create
stores integral non-negative readings and no value; a create with a
value, and one missing the diastolic reading, are both rejected with 400
and change nothing; so is an update carrying a value. -/
theorem bp_write_invariant_amended_witness :
    ((createHealthRecordRoute 10 demoStore ownerUser 1
        { type := some "blood_pressure", value := none, unit := none,
          systolic := some 120, diastolic := some 80, notes := none,
          recordedAt := some 5 }).1
       = .success 201 (.record
           { id := 5, patientId := 1, type := "blood_pressure", value := none,
             unit := none, systolic := some 120, diastolic := some 80,
             notes := "", recordedAt := 5, createdAt := 10 }) ∧
     mwBodyType { type := some "blood_pressure", value := some 7, unit := none,
                  systolic := some 120, diastolic := some 80, notes := none,
                  recordedAt := some 5 } = "blood_pressure" ∧
     findProfile demoStore 1 = some demoProfile ∧
     ownershipFails demoProfile ownerUser = false) ∧
    ({ id := 5, patientId := 1, type := "blood_pressure", value := none,
       unit := none, systolic := some 120, diastolic := some 80,
       notes := "", recordedAt := 5, createdAt := 10 : HealthRecord }.value = none ∧
     (∃ s, ({ id := 5, patientId := 1, type := "blood_pressure", value := none,
              unit := none, systolic := some 120, diastolic := some 80,
              notes := "", recordedAt := 5, createdAt := 10 : HealthRecord }).systolic
            = some s ∧ ratIsNonnegInt s = true)) ∧
    ((createHealthRecordRoute 10 demoStore ownerUser 1
        { type := some "blood_pressure", value := some 7, unit := none,
          systolic := some 120, diastolic := some 80, notes := none,
          recordedAt := some 5 }).1.statusOf = 400 ∧
     (createHealthRecordRoute 10 demoStore ownerUser 1
        { type := some "blood_pressure", value := some 7, unit := none,
          systolic := some 120, diastolic := some 80, notes := none,
          recordedAt := some 5 }).2 = demoStore) ∧
    ((createHealthRecordRoute 10 demoStore ownerUser 1
        { type := some "blood_pressure", value := none, unit := none,
          systolic := some 120, diastolic := none, notes := none,
          recordedAt := some 5 }).1.statusOf = 400 ∧
     (createHealthRecordRoute 10 demoStore ownerUser 1
        { type := some "blood_pressure", value := none, unit := none,
          systolic := some 120, diastolic := none, notes := none,
          recordedAt := some 5 }).2 = demoStore) ∧
    ((updateHealthRecordRoute 10 demoStore ownerUser 2
        { type := some "blood_pressure", value := some 7, unit := none,
          systolic := some 120, diastolic := some 80, notes := none,
          recordedAt := some 5 }).1.statusOf = 400 ∧
     (updateHealthRecordRoute 10 demoStore ownerUser 2
        { type := some "blood_pressure", value := some 7, unit := none,
          systolic := some 120, diastolic := some 80, notes := none,
          recordedAt := some 5 }).2 = demoStore) := by
  refine ⟨⟨by decide, by decide, by decide, by decide⟩, ?_, ?_, ?_, ?_⟩
  · exact ((bp_write_invariant_amended 10 demoStore ownerUser 1 2
      { type := some "blood_pressure", value := none, unit := none,
        systolic := some 120, diastolic := some 80, notes := none,
        recordedAt := some 5 } demoProfile
      { id := 5, patientId := 1, type := "blood_pressure", value := none,
        unit := none, systolic := some 120, diastolic := some 80,
        notes := "", recordedAt := 5, createdAt := 10 }).1 (by decide) (by decide)).elim
      (fun hv hrest => ⟨hv, hrest.1⟩)
  · exact (bp_write_invariant_amended 10 demoStore ownerUser 1 2
      { type := some "blood_pressure", value := some 7, unit := none,
        systolic := some 120, diastolic := some 80, notes := none,
        recordedAt := some 5 } demoProfile demoBp).2.1 (by decide) (by decide)
  · exact (bp_write_invariant_amended 10 demoStore ownerUser 1 2
      { type := some "blood_pressure", value := none, unit := none,
        systolic := some 120, diastolic := none, notes := none,
        recordedAt := some 5 } demoProfile demoBp).2.2.1 (by decide)
      (Or.inr (by decide)) (by decide) (by decide)
  · exact (bp_write_invariant_amended 10 demoStore ownerUser 1 2
      { type := some "blood_pressure", value := some 7, unit := none,
        systolic := some 120, diastolic := some 80, notes := none,
        recordedAt := some 5 } demoProfile demoBp).2.2.2 (by decide) (by decide)

/-- C7 (counterexample): the claim says every multi-violation body gets a
400 carrying all violations as a list of (field, message) pairs; but a
blood-pressure create missing both systolic and diastolic slips through
the middleware (its optional chains skip absent fields), fails the two
schema required rules, and the controller replies with ONE comma-joined
message string, not a list of pairs. -/
theorem schema_errors_joined_single_string :
    (createHealthRecordRoute 10 demoStore ownerUser 1
       { type := some "blood_pressure", value := none, unit := none,
         systolic := none, diastolic := none, notes := none,
         recordedAt := some 5 }).1
      = .failure 400 "Path systolic is required., Path diastolic is required." ∧
    (createHealthRecordRoute 10 demoStore ownerUser 1
       { type := some "blood_pressure", value := none, unit := none,
         systolic := none, diastolic := none, notes := none,
         recordedAt := some 5 }).2 = demoStore := by
  exact ⟨by decide, by decide⟩

/-- C7 (amended): violations caught by the express-validator middleware
are accumulated across all chains and returned as a 400 with the full
list of (field, message) pairs, with nothing stored; but a body that
passes the middleware and fails schema validation gets a 400 whose error
is the comma-joined message string of all schema violations, not a list
of pairs. -/
theorem validation_error_shapes_amended
    (now : Int) (st : Store) (user : ReqUser) (pid : Id) (body : HealthRecordBody)
    (p : PatientProfile) :
    (mwValidateHealthRecordBody now body ≠ [] →
      createHealthRecordRoute now st user pid body
        = (.failureList 400 (mwValidateHealthRecordBody now body), st)) ∧
    (mwValidateHealthRecordBody now body = [] →
     findProfile st pid = some p → ownershipFails p user = false →
     mongooseValidateHealthRecord (buildHealthRecordDoc now st.nextId pid body) ≠ [] →
      createHealthRecordRoute now st user pid body
        = (.failure 400 (joinMsgs (mongooseValidateHealthRecord
            (buildHealthRecordDoc now st.nextId pid body))), st)) := by
  constructor
  · intro hne
    have hmw : (mwValidateHealthRecordBody now body).isEmpty = false := by
      simpa [List.isEmpty_iff] using hne
    simp [createHealthRecordRoute, hmw]
  · intro hmw hfp hof hne
    have hmw2 : (mwValidateHealthRecordBody now body).isEmpty = true := by
      simp [List.isEmpty_iff, hmw]
    have hme : (mongooseValidateHealthRecord
        (buildHealthRecordDoc now st.nextId pid body)).isEmpty = false := by
      simpa [List.isEmpty_iff] using hne
    simp [createHealthRecordRoute, createHealthRecord, hmw2, hfp, hof, hme]

set_option maxRecDepth 4096 in
/-- C7 (witness): a body with a too-long notes field and a future
recordedAt violates two middleware rules and comes back as the 400 list
carrying both pairs; the counterexample body exercises the schema
path. -/
theorem validation_error_shapes_amended_witness :
    (mwValidateHealthRecordBody 10
       { type := some "weight", value := some 70, unit := some "kg",
         systolic := none, diastolic := none,
         notes := some (String.mk (List.replicate 1001 'x')),
         recordedAt := some 99 }
      = [("recordedAt", "Recorded date cannot be in the future."),
         ("notes", "Notes cannot be more than 1000 characters.")]) ∧
    createHealthRecordRoute 10 demoStore ownerUser 1
       { type := some "weight", value := some 70, unit := some "kg",
         systolic := none, diastolic := none,
         notes := some (String.mk (List.replicate 1001 'x')),
         recordedAt := some 99 }
      = (.failureList 400
          [("recordedAt", "Recorded date cannot be in the future."),
           ("notes", "Notes cannot be more than 1000 characters.")], demoStore) := by
  have h1 : mwValidateHealthRecordBody 10
      { type := some "weight", value := some 70, unit := some "kg",
        systolic := none, diastolic := none,
        notes := some (String.mk (List.replicate 1001 'x')),
        recordedAt := some 99 }
      = [("recordedAt", "Recorded date cannot be in the future."),
         ("notes", "Notes cannot be more than 1000 characters.")] := by decide
  refine ⟨h1, ?_⟩
  have h2 := (validation_error_shapes_amended 10 demoStore ownerUser 1
    { type := some "weight", value := some 70, unit := some "kg",
      systolic := none, diastolic := none,
      notes := some (String.mk (List.replicate 1001 'x')),
      recordedAt := some 99 } demoProfile).1 (by rw [h1]; decide)
  rw [h1] at h2
  exact h2

/-! ## C5 — the Medication to PatientProfile back-reference invariant -/

lemma map_id_nodup (l : List PatientProfile) (g : PatientProfile → PatientProfile)
    (hg : ∀ q, (g q).id = q.id) (h : (l.map PatientProfile.id).Nodup) :
    ((l.map g).map PatientProfile.id).Nodup := by
  rw [List.map_map]
  have he : PatientProfile.id ∘ g = PatientProfile.id := funext hg
  rw [he]
  exact h

/-- Adding a freshly-minted medication for profile pid and pushing its id
preserves the invariant. -/
lemma medInv_add_generic (st : Store) (pid : Id) (med : Medication)
    (hmedid : med.id = st.nextId) (hmedpat : med.patientId = pid)
    (h : MedInv st) :
    MedInv { st with
      medications := st.medications ++ [med]
      profiles := st.profiles.map (fun q => if q.id == pid then
        { q with currentMedications := q.currentMedications ++ [med.id] } else q)
      nextId := st.nextId + 1 } := by
  obtain ⟨hbound, hmnd, hpnd, hprof⟩ := h
  refine ⟨?_, ?_, ?_, ?_⟩
  · intro m hm
    rcases List.mem_append.mp hm with hm | hm
    · exact Nat.lt_succ_of_lt (hbound m hm)
    · rw [List.mem_singleton] at hm
      subst hm
      rw [hmedid]
      exact Nat.lt_succ_self _
  · rw [List.map_append, List.nodup_append]
    refine ⟨hmnd, by simp, ?_⟩
    intro a ha hb
    obtain ⟨m, hm, hid⟩ := List.mem_map.mp ha
    simp only [List.map_cons, List.map_nil, List.mem_singleton] at hb
    subst hid
    rw [hmedid] at hb
    exact absurd hb (Nat.ne_of_lt (hbound m hm))
  · have hg : ∀ q : PatientProfile,
        ((fun q => if q.id == pid then
          { q with currentMedications := q.currentMedications ++ [med.id] }
          else q) q).id = q.id := by
      intro q
      by_cases hq : (q.id == pid) = true
      · simp only [if_pos hq]
      · simp only [if_neg hq]
    exact map_id_nodup st.profiles _ hg hpnd
  · intro p' hp'
    obtain ⟨q, hq, hq2⟩ := List.mem_map.mp hp'
    obtain ⟨hndq, hfwd, hbwd⟩ := hprof q hq
    by_cases hqid : (q.id == pid) = true
    · rw [if_pos hqid] at hq2
      subst hq2
      have hqp : q.id = pid := by simpa using hqid
      refine ⟨?_, ?_, ?_⟩
      · rw [List.nodup_append]
        refine ⟨hndq, by simp, ?_⟩
        intro a ha hb
        simp only [List.mem_singleton] at hb
        obtain ⟨m', hm', hid', _⟩ := hfwd a ha
        rw [hb, hmedid] at hid'
        exact absurd hid' (Nat.ne_of_lt (hbound m' hm'))
      · intro i hi
        rcases List.mem_append.mp hi with hi | hi
        · obtain ⟨m', hm', hid', hpat'⟩ := hfwd i hi
          exact ⟨m', List.mem_append.mpr (Or.inl hm'), hid', hpat'⟩
        · rw [List.mem_singleton] at hi
          refine ⟨med, List.mem_append.mpr (Or.inr (by simp)), by rw [hi], ?_⟩
          show med.patientId = q.id
          rw [hmedpat, hqp]
      · intro m' hm' hpat'
        rcases List.mem_append.mp hm' with hm' | hm'
        · exact List.mem_append.mpr (Or.inl (hbwd m' hm' hpat'))
        · rw [List.mem_singleton] at hm'
          subst hm'
          exact List.mem_append.mpr (Or.inr (by simp))
    · rw [if_neg (by simpa using hqid)] at hq2
      subst hq2
      refine ⟨hndq, ?_, ?_⟩
      · intro i hi
        obtain ⟨m', hm', hid', hpat'⟩ := hfwd i hi
        exact ⟨m', List.mem_append.mpr (Or.inl hm'), hid', hpat'⟩
      · intro m' hm' hpat'
        rcases List.mem_append.mp hm' with hm' | hm'
        · exact hbwd m' hm' hpat'
        · rw [List.mem_singleton] at hm'
          subst hm'
          exfalso
          apply hqid
          have : q.id = pid := by rw [← hpat', hmedpat]
          simp [this]

/-- Pulling a deleted medications id from its parents list and removing
the document preserves the invariant. -/
lemma medInv_del_generic (st : Store) (mid pat : Id) (m0 : Medication)
    (hm0 : m0 ∈ st.medications) (hm0id : m0.id = mid) (hm0pat : m0.patientId = pat)
    (h : MedInv st) :
    MedInv { st with
      profiles := st.profiles.map (fun q => if q.id == pat then
        { q with currentMedications :=
            q.currentMedications.filter (fun i => i != mid) } else q)
      medications := st.medications.filter (fun x => x.id != mid) } := by
  obtain ⟨hbound, hmnd, hpnd, hprof⟩ := h
  refine ⟨?_, ?_, ?_, ?_⟩
  · intro m hm
    exact hbound m (List.mem_of_mem_filter hm)
  · exact List.Nodup.sublist (List.Sublist.map _ (List.filter_sublist _)) hmnd
  · have hg : ∀ q : PatientProfile,
        ((fun q => if q.id == pat then
          { q with currentMedications :=
              q.currentMedications.filter (fun i => i != mid) }
          else q) q).id = q.id := by
      intro q
      by_cases hq : (q.id == pat) = true
      · simp only [if_pos hq]
      · simp only [if_neg hq]
    exact map_id_nodup st.profiles _ hg hpnd
  · intro p' hp'
    obtain ⟨q, hq, hq2⟩ := List.mem_map.mp hp'
    obtain ⟨hndq, hfwd, hbwd⟩ := hprof q hq
    by_cases hqid : (q.id == pat) = true
    · rw [if_pos hqid] at hq2
      subst hq2
      refine ⟨hndq.filter _, ?_, ?_⟩
      · intro i hi
        have hi0 : i ∈ q.currentMedications.filter (fun j => j != mid) := hi
        have hi2 := List.mem_of_mem_filter hi0
        have hine0 := List.of_mem_filter hi0
        have hine : (i != mid) = true := hine0
        obtain ⟨m', hm', hid', hpat'⟩ := hfwd i hi2
        refine ⟨m', List.mem_filter.mpr ⟨hm', ?_⟩, hid', hpat'⟩
        rw [hid']
        exact hine
      · intro m' hm' hpat'
        have hm0' : m' ∈ st.medications.filter (fun x => x.id != mid) := hm'
        have hm'2 := List.mem_of_mem_filter hm0'
        have hne0 := List.of_mem_filter hm0'
        have hne : (m'.id != mid) = true := hne0
        exact List.mem_filter.mpr ⟨hbwd m' hm'2 hpat', hne⟩
    · rw [if_neg (by simpa using hqid)] at hq2
      subst hq2
      refine ⟨hndq, ?_, ?_⟩
      · intro i hi
        obtain ⟨m', hm', hid', hpat'⟩ := hfwd i hi
        refine ⟨m', List.mem_filter.mpr ⟨hm', ?_⟩, hid', hpat'⟩
        by_contra hcon
        have hmeq : m'.id = mid := by simpa using hcon
        have hmm : m' = m0 :=
          List.inj_on_of_nodup_map hmnd hm' hm0 (by rw [hmeq, hm0id])
        apply hqid
        have hq2 : q.id = pat := by rw [← hpat', hmm, hm0pat]
        simp [hq2]
      · intro m' hm' hpat'
        exact hbwd m' (List.mem_of_mem_filter hm') hpat'

lemma addMedication_medInv (st : Store) (u : ReqUser) (pid : Id) (b : MedicationBody)
    (h : MedInv st) : MedInv (addMedication st u pid b).2 := by
  cases hfp : findProfile st pid with
  | none => simpa [addMedication, hfp] using h
  | some p =>
    by_cases hof : ownershipFails p u
    · simpa [addMedication, hfp, hof] using h
    · by_cases he : (medValidateErrors b).isEmpty
      · have hstep : (addMedication st u pid b).2 = { st with
            medications := st.medications ++
              [{ id := st.nextId, patientId := pid,
                 name := strTrim (b.name.getD ""),
                 dosage := strTrim (b.dosage.getD ""),
                 frequency := strTrim (b.frequency.getD ""),
                 instructions := b.instructions.getD "",
                 startDate := b.startDate.getD 0, endDate := b.endDate,
                 status := b.status.getD "active" }]
            profiles := st.profiles.map (fun q => if q.id == pid then
              { q with currentMedications := q.currentMedications ++ [st.nextId] }
              else q)
            nextId := st.nextId + 1 } := by
          simp [addMedication, hfp, hof, he]
        rw [hstep]
        exact medInv_add_generic st pid _ rfl rfl h
      · simpa [addMedication, hfp, hof, he] using h

lemma deleteMedication_medInv (st : Store) (u : ReqUser) (mid : Id)
    (h : MedInv st) : MedInv (deleteMedication st u mid).2 := by
  cases hfm : findMedication st mid with
  | none => simpa [deleteMedication, hfm] using h
  | some m =>
    cases hfp : findProfile st m.patientId with
    | none => simpa [deleteMedication, hfm, hfp] using h
    | some p =>
      by_cases hof : ownershipFails p u
      · simpa [deleteMedication, hfm, hfp, hof] using h
      · have hstep : (deleteMedication st u mid).2 = { st with
            profiles := st.profiles.map (fun q => if q.id == m.patientId then
              { q with currentMedications :=
                  q.currentMedications.filter (fun i => i != mid) } else q)
            medications := st.medications.filter (fun x => x.id != mid) } := by
          simp [deleteMedication, hfm, hfp, hof]
        rw [hstep]
        exact medInv_del_generic st mid m.patientId m
          (List.mem_of_find?_eq_some hfm)
          (by simpa using List.find?_some hfm) rfl h

lemma medReachable_inv (st : Store) (h : MedReachable st) : MedInv st := by
  induction h with
  | init st h => exact h
  | add st u pid b _ ih => exact addMedication_medInv st u pid b ih
  | del st u mid _ ih => exact deleteMedication_medInv st u mid ih

/-- C5: after any sequence of addMedication and deleteMedication calls
from a well-formed store, every profiles currentMedications list is
duplicate-free (each id occurs at most once, so a delete removes its id
exactly once), contains only ids of stored (non-deleted) medications
referencing that profile, and contains the id of every such
medication — that is, it exactly equals the set of non-deleted
medication ids. -/
theorem medication_list_exact (st : Store) (h : MedReachable st) :
    ∀ p ∈ st.profiles,
      p.currentMedications.Nodup ∧
      (∀ i, p.currentMedications.count i ≤ 1) ∧
      (∀ i ∈ p.currentMedications,
        ∃ m ∈ st.medications, m.id = i ∧ m.patientId = p.id) ∧
      (∀ m ∈ st.medications, m.patientId = p.id → m.id ∈ p.currentMedications) := by
  intro p hp
  obtain ⟨hnd, hfwd, hbwd⟩ := (medReachable_inv st h).2.2.2 p hp
  exact ⟨hnd, fun i => List.nodup_iff_count_le_one.mp hnd i, hfwd, hbwd⟩

/-- C5 (witness): from the demo store, add a medication and then delete
it; the invariant holds at the resulting store. -/
theorem medication_list_exact_witness :
    MedReachable (deleteMedication (addMedication demoStore ownerUser 1
      { name := some "Ibuprofen", dosage := some "5mg", frequency := some "Daily",
        instructions := none, startDate := some 2, endDate := none,
        status := none }).2 ownerUser 5).2 ∧
    ∀ p ∈ (deleteMedication (addMedication demoStore ownerUser 1
      { name := some "Ibuprofen", dosage := some "5mg", frequency := some "Daily",
        instructions := none, startDate := some 2, endDate := none,
        status := none }).2 ownerUser 5).2.profiles,
      p.currentMedications.Nodup ∧
      (∀ i, p.currentMedications.count i ≤ 1) ∧
      (∀ i ∈ p.currentMedications,
        ∃ m ∈ (deleteMedication (addMedication demoStore ownerUser 1
          { name := some "Ibuprofen", dosage := some "5mg",
            frequency := some "Daily", instructions := none, startDate := some 2,
            endDate := none, status := none }).2 ownerUser 5).2.medications,
          m.id = i ∧ m.patientId = p.id) ∧
      (∀ m ∈ (deleteMedication (addMedication demoStore ownerUser 1
          { name := some "Ibuprofen", dosage := some "5mg",
            frequency := some "Daily", instructions := none, startDate := some 2,
            endDate := none, status := none }).2 ownerUser 5).2.medications,
        m.patientId = p.id → m.id ∈ p.currentMedications) := by
  have reach : MedReachable (deleteMedication (addMedication demoStore ownerUser 1
      { name := some "Ibuprofen", dosage := some "5mg", frequency := some "Daily",
        instructions := none, startDate := some 2, endDate := none,
        status := none }).2 ownerUser 5).2 :=
    MedReachable.del _ ownerUser 5
      (MedReachable.add demoStore ownerUser 1 _
        (MedReachable.init demoStore (by decide)))
  exact ⟨reach, medication_list_exact _ reach⟩

end MedAI
